import Mathlib

/-!
# CreateAccountOpFrame

A shallow embedding of `src/transactions/CreateAccountOpFrame.cpp` and a
verification of its specification.

The three methods of the frame (`doApply`, `validateAccountTypes`,
`doCheckValid`) are translated line by line.  Mutable C++ state (the ledger
delta, the frame's account handles, the inner result and the metrics
registry) is passed explicitly in `OpState`.  A failed `assert` and a thrown
store exception are the `Except.error` results of `doApply`.

Signed 64-bit arithmetic is modelled on `Int`; the one subtraction of the
handler whose operands can overflow within the `int64_t` range
(`balance - minBalance`) is wrapped modulo `2^64`.
-/

namespace stellar

/-! ## Data model -/

/-- An account identifier (a public key), compared by equality only. -/
abbrev AccountID := Nat

/-- Modelled from the spec: the declaration of the `AccountType` enumeration
is not part of the source file.  The handler only compares tags for equality
with the five named enumerators, so their numeric values are taken as a
parameter. -/
structure AccountTypeTags where
  FOUNDATION : Nat
  LBO : Nat
  OPERATOR : Nat
  ISSUER : Nat
  CLIENT : Nat
  deriving DecidableEq, Repr

/-- Modelled from the spec: the declaration of the result codes is not part of
the source file; these are the six codes the spec lists. -/
inductive CreateAccountResultCode where
  | CREATE_ACCOUNT_SUCCESS
  | CREATE_ACCOUNT_MALFORMED
  | CREATE_ACCOUNT_UNDERAUTHORIZED
  | CREATE_ACCOUNT_LOW_RESERVE
  | CREATE_ACCOUNT_UNDERFUNDED
  | CREATE_ACCOUNT_ALREADY_EXIST
  deriving DecidableEq, Repr

open CreateAccountResultCode

/-- Modelled from the spec: the account record declaration is not part of the
source file; the fields are those of the spec's `AccountRecord`
(`balance` is an `int64_t`, `seqNum` a 64-bit and `accountType`,
`numSubEntries` 32-bit unsigned values). -/
structure AccountEntry where
  accountID : AccountID
  balance : Int
  seqNum : Nat
  accountType : Nat
  numSubEntries : Nat
  deriving DecidableEq, Repr

/-- Modelled from the spec: the declaration of the operation payload
`mCreateAccount` is not part of the source file; the fields are those of the
spec's `CreateAccountOp` (`startingBalance` is an `int64_t`). -/
structure CreateAccountOp where
  destination : AccountID
  startingBalance : Int
  accountType : Nat
  deriving DecidableEq, Repr

/-- A pending mutation queued in the ledger delta. -/
inductive Mutation where
  | add (e : AccountEntry)
  | change (e : AccountEntry)
  deriving DecidableEq, Repr

/-- The record carried by a mutation. -/
def Mutation.entry : Mutation → AccountEntry
  | .add e => e
  | .change e => e

/-- Whether a mutation is an insertion. -/
def Mutation.isAdd : Mutation → Bool
  | .add _ => true
  | .change _ => false

/-- Modelled from the spec: `LedgerDelta` is not part of the source file.
Following the spec it is a staging buffer of pending mutations (`staged`,
newest first) layered over a ledger snapshot, together with the ledger header
value `startingSequenceNumber`. -/
structure LedgerDelta where
  snapshot : List AccountEntry
  staged : List Mutation
  startingSequenceNumber : Nat
  deriving DecidableEq, Repr

/-- The account records visible through the delta, newest first. -/
def LedgerDelta.visible (d : LedgerDelta) : List AccountEntry :=
  d.staged.map Mutation.entry ++ d.snapshot

/-- Modelled from the spec: `AccountFrame::loadAccount` is not part of the
source file.  It returns the record bound to the current delta for the given
id, if there is one; it is a pure lookup. -/
def LedgerDelta.loadAccount (d : LedgerDelta) (id : AccountID) : Option AccountEntry :=
  d.visible.find? (fun e => e.accountID == id)

/-- Modelled from the spec: `AccountFrame::storeAdd` is not part of the source
file.  It queues an insertion and must fail if the id exists. -/
def LedgerDelta.storeAdd (d : LedgerDelta) (e : AccountEntry) : Option LedgerDelta :=
  if (d.loadAccount e.accountID).isSome then none
  else some { d with staged := Mutation.add e :: d.staged }

/-- Modelled from the spec: `AccountFrame::storeChange` is not part of the
source file.  It queues an update and must fail if the id is absent. -/
def LedgerDelta.storeChange (d : LedgerDelta) (e : AccountEntry) : Option LedgerDelta :=
  if (d.loadAccount e.accountID).isNone then none
  else some { d with staged := Mutation.change e :: d.staged }

/-- Modelled from the spec: `LedgerHeaderFrame::getStartingSequenceNumber` is
not part of the source file; it is the sequence number given to newly created
accounts. -/
def LedgerDelta.getStartingSequenceNumber (d : LedgerDelta) : Nat :=
  d.startingSequenceNumber

/-- Modelled from the spec: the `AccountFrame(AccountID)` constructor is not
part of the source file.  A fresh record has the given id and no subentries;
the other fields are zero until assigned. -/
def AccountFrame.new (id : AccountID) : AccountEntry :=
  { accountID := id, balance := 0, seqNum := 0, accountType := 0, numSubEntries := 0 }

/-- Modelled from the spec: `AccountFrame::addBalance` is not part of the
source file.  The change is accepted exactly when the resulting balance is
not negative; a rejected change leaves the record untouched. -/
def AccountFrame.addBalance (a : AccountEntry) (delta : Int) : Bool × AccountEntry :=
  if a.balance + delta < 0 then (false, a)
  else (true, { a with balance := a.balance + delta })

/-- Modelled from the spec: `AccountFrame::getMinimumBalance` is not part of
the source file.  It is the ledger policy's `minimum_balance` at the account's
subentry count; the policy is a parameter. -/
def AccountFrame.getMinimumBalance (getMinBalance : Nat → Int) (a : AccountEntry) : Int :=
  getMinBalance a.numSubEntries

/-! ## Machine arithmetic -/

def INT64_MIN : Int := -9223372036854775808

def INT64_MAX : Int := 9223372036854775807

/-- The value lies in the range of `int64_t`. -/
def isInt64 (x : Int) : Prop := INT64_MIN ≤ x ∧ x ≤ INT64_MAX

instance (x : Int) : Decidable (isInt64 x) :=
  inferInstanceAs (Decidable (INT64_MIN ≤ x ∧ x ≤ INT64_MAX))

/-- Reduction of an integer to the `int64_t` range, modulo `2^64`. -/
def wrap64 (x : Int) : Int :=
  (x + 9223372036854775808) % 18446744073709551616 - 9223372036854775808

/-- The `int64_t` subtraction `a - b`. -/
def sub64 (a b : Int) : Int := wrap64 (a - b)

/-- The `int64_t` negation `-a`. -/
def neg64 (a : Int) : Int := wrap64 (-a)

/-- The `int64_t` addition `a + b`. -/
def add64 (a b : Int) : Int := wrap64 (a + b)

/-! ## Handler state -/

/-- A counter name, the three components passed to `NewMeter`. -/
abbrev MetricName := List String

/-- The state the handler reads and writes: the ledger delta, the frame's
account handles `mSourceAccount` and `mDestAccount`, the code of
`innerResult()` and the counters marked so far (oldest first). -/
structure OpState where
  delta : LedgerDelta
  mSourceAccount : AccountEntry
  mDestAccount : Option AccountEntry
  innerResult : CreateAccountResultCode
  metrics : List MetricName
  deriving DecidableEq, Repr

/-- `app.getMetrics().NewMeter(name, "operation").Mark()`. -/
def OpState.mark (s : OpState) (name : MetricName) : OpState :=
  { s with metrics := s.metrics ++ [name] }

/-- `innerResult().code(c)`. -/
def OpState.code (s : OpState) (c : CreateAccountResultCode) : OpState :=
  { s with innerResult := c }

/-- The ways `doApply` can end without returning. -/
inductive Fault where
  | assertFailed
  | storeChangeFailed
  | storeAddFailed
  deriving DecidableEq, Repr

deriving instance DecidableEq for Except

/-! ## The handler -/

/-- `CreateAccountOpFrame::validateAccountTypes`. -/
def validateAccountTypes (T : AccountTypeTags) (mSourceAccount : AccountEntry)
    (mCreateAccount : CreateAccountOp) : Bool :=
  let sourceType := mSourceAccount.accountType
  let destType := mCreateAccount.accountType
  if (sourceType == T.FOUNDATION && destType == T.LBO)
      || (sourceType == T.FOUNDATION && destType == T.OPERATOR)
      || (sourceType == T.FOUNDATION && destType == T.ISSUER)
      || (sourceType == T.LBO && destType == T.ISSUER)
      || (destType == T.CLIENT) then
    true
  else
    false

/-- `CreateAccountOpFrame::doApply`. -/
def doApply (T : AccountTypeTags) (getMinBalance : Nat → Int)
    (mCreateAccount : CreateAccountOp) (s : OpState) : Except Fault (Bool × OpState) :=
  let s := { s with mDestAccount := s.delta.loadAccount mCreateAccount.destination }
  if s.mDestAccount.isNone then
    if !validateAccountTypes T s.mSourceAccount mCreateAccount then
      let s := s.mark ["op-create-account", "failure", "underauthorized"]
      let s := s.code CREATE_ACCOUNT_UNDERAUTHORIZED
      .ok (false, s)
    else if mCreateAccount.startingBalance < 10 then
      let s := s.mark ["op-create-account", "failure", "low-reserve"]
      let s := s.code CREATE_ACCOUNT_LOW_RESERVE
      .ok (false, s)
    else
      let minBalance := AccountFrame.getMinimumBalance getMinBalance s.mSourceAccount
      if sub64 s.mSourceAccount.balance minBalance < mCreateAccount.startingBalance then
        let s := s.mark ["op-create-account", "failure", "underfunded"]
        let s := s.code CREATE_ACCOUNT_UNDERFUNDED
        .ok (false, s)
      else
        -- startingBalance ≥ 10 here, so the int64 negation is exact
        let r := AccountFrame.addBalance s.mSourceAccount (-mCreateAccount.startingBalance)
        if !r.1 then .error Fault.assertFailed
        else
          let s := { s with mSourceAccount := r.2 }
          match s.delta.storeChange s.mSourceAccount with
          | none => .error Fault.storeChangeFailed
          | some d =>
            let s := { s with delta := d }
            let dest := AccountFrame.new mCreateAccount.destination
            let dest := { dest with seqNum := s.delta.getStartingSequenceNumber }
            let dest := { dest with balance := mCreateAccount.startingBalance }
            let dest := { dest with accountType := mCreateAccount.accountType }
            let s := { s with mDestAccount := some dest }
            match s.delta.storeAdd dest with
            | none => .error Fault.storeAddFailed
            | some d =>
              let s := { s with delta := d }
              let s := s.mark ["op-create-account", "success", "apply"]
              let s := s.code CREATE_ACCOUNT_SUCCESS
              .ok (true, s)
  else
    let s := s.mark ["op-create-account", "failure", "already-exist"]
    let s := s.code CREATE_ACCOUNT_ALREADY_EXIST
    .ok (false, s)

/-- `CreateAccountOpFrame::doCheckValid`; `sourceID` is the value of
`getSourceID()`. -/
def doCheckValid (sourceID : AccountID) (mCreateAccount : CreateAccountOp)
    (s : OpState) : Bool × OpState :=
  if mCreateAccount.startingBalance ≤ 0 then
    let s := s.mark ["op-create-account", "invalid", "malformed-negative-balance"]
    let s := s.code CREATE_ACCOUNT_MALFORMED
    (false, s)
  else if mCreateAccount.destination == sourceID then
    let s := s.mark ["op-create-account", "invalid", "malformed-destination-equals-source"]
    let s := s.code CREATE_ACCOUNT_MALFORMED
    (false, s)
  else
    (true, s)

/-! ## Scenario data -/

/-- Tag values used in the concrete scenarios. -/
def tags0 : AccountTypeTags :=
  { FOUNDATION := 0, LBO := 1, OPERATOR := 2, ISSUER := 3, CLIENT := 4 }

/-- Scenario S1: a FOUNDATION source `A = 1` with balance 1000. -/
def s1Source : AccountEntry :=
  { accountID := 1, balance := 1000, seqNum := 7, accountType := 0, numSubEntries := 0 }

def s1State : OpState :=
  { delta := { snapshot := [s1Source], staged := [], startingSequenceNumber := 4294967296 },
    mSourceAccount := s1Source, mDestAccount := none,
    innerResult := CREATE_ACCOUNT_SUCCESS, metrics := [] }

/-- Scenario S1: create `B = 2` as a CLIENT with starting balance 100. -/
def s1Op : CreateAccountOp :=
  { destination := 2, startingBalance := 100, accountType := 4 }

/-- Create `B = 2` as a CLIENT with starting balance 50. -/
def fiftyOp : CreateAccountOp :=
  { destination := 2, startingBalance := 50, accountType := 4 }

/-- Scenario S2: a CLIENT source holding 10000 asks for an ISSUER account. -/
def s2Source : AccountEntry :=
  { accountID := 1, balance := 10000, seqNum := 7, accountType := 4, numSubEntries := 0 }

def s2State : OpState :=
  { delta := { snapshot := [s2Source], staged := [], startingSequenceNumber := 4294967296 },
    mSourceAccount := s2Source, mDestAccount := none,
    innerResult := CREATE_ACCOUNT_SUCCESS, metrics := [] }

def s2Op : CreateAccountOp :=
  { destination := 2, startingBalance := 1000, accountType := 3 }

/-- Scenario S5: a source holding 100 under a reserve of 50 asks for 80. -/
def s5Source : AccountEntry :=
  { accountID := 1, balance := 100, seqNum := 7, accountType := 0, numSubEntries := 0 }

def s5State : OpState :=
  { delta := { snapshot := [s5Source], staged := [], startingSequenceNumber := 4294967296 },
    mSourceAccount := s5Source, mDestAccount := none,
    innerResult := CREATE_ACCOUNT_SUCCESS, metrics := [] }

def s5Op : CreateAccountOp :=
  { destination := 2, startingBalance := 80, accountType := 4 }

def s5Policy : Nat → Int := fun _ => 50

/-- Create `B = 2` as a CLIENT with starting balance 20. -/
def twentyOp : CreateAccountOp :=
  { destination := 2, startingBalance := 20, accountType := 4 }

/-- A second request for `B = 2`, by a later operation. -/
def againOp : CreateAccountOp :=
  { destination := 2, startingBalance := 300, accountType := 3 }

/-- A bystander account `C = 3`. -/
def bystander : AccountEntry :=
  { accountID := 3, balance := 77, seqNum := 9, accountType := 4, numSubEntries := 2 }

/-- The state of scenario S1 over a snapshot that also holds the bystander. -/
def crowdedState : OpState :=
  { s1State with
    delta := { snapshot := [s1Source, bystander], staged := [],
               startingSequenceNumber := 4294967296 } }

/-- The state of scenario S1 as another replica may hold it: the same delta and
source record, but other leftovers in the frame and the metrics registry. -/
def replicaState : OpState :=
  { s1State with
    mDestAccount := some bystander,
    innerResult := CREATE_ACCOUNT_MALFORMED,
    metrics := [["op-payment", "success", "apply"]] }

/-- A request with a starting balance of zero. -/
def zeroOp : CreateAccountOp :=
  { destination := 2, startingBalance := 0, accountType := 4 }

/-- Scenario S6: the destination is the source `A = 1` itself. -/
def s6Op : CreateAccountOp :=
  { destination := 1, startingBalance := 100, accountType := 4 }

/-- A request naming the source as destination with a negative balance. -/
def doublyMalformedOp : CreateAccountOp :=
  { destination := 1, startingBalance := -3, accountType := 4 }

/-! ## Definitions taken from the specification -/

/-- The policy floor `MIN_STARTING_BALANCE` of the specification. -/
def MIN_STARTING_BALANCE : Int := 10

/-- The rule list of the specification for the result code of `apply`: the
first matching rule wins. -/
def firstMatchingRule (T : AccountTypeTags) (pol : Nat → Int) (op : CreateAccountOp)
    (s : OpState) : CreateAccountResultCode :=
  if (s.delta.loadAccount op.destination).isSome then CREATE_ACCOUNT_ALREADY_EXIST
  else if validateAccountTypes T s.mSourceAccount op = false then
    CREATE_ACCOUNT_UNDERAUTHORIZED
  else if op.startingBalance < MIN_STARTING_BALANCE then CREATE_ACCOUNT_LOW_RESERVE
  else if sub64 s.mSourceAccount.balance (pol s.mSourceAccount.numSubEntries)
      < op.startingBalance then CREATE_ACCOUNT_UNDERFUNDED
  else CREATE_ACCOUNT_SUCCESS

/-- The permitted-creation relation `R` of the specification, row by row. -/
def permittedCreation (T : AccountTypeTags) (sourceType destType : Nat) : Prop :=
  (sourceType = T.FOUNDATION ∧ destType = T.LBO) ∨
  (sourceType = T.FOUNDATION ∧ destType = T.OPERATOR) ∨
  (sourceType = T.FOUNDATION ∧ destType = T.ISSUER) ∨
  (sourceType = T.LBO ∧ destType = T.ISSUER) ∨
  destType = T.CLIENT

instance (T : AccountTypeTags) (a b : Nat) : Decidable (permittedCreation T a b) :=
  inferInstanceAs (Decidable
    ((a = T.FOUNDATION ∧ b = T.LBO) ∨ (a = T.FOUNDATION ∧ b = T.OPERATOR) ∨
      (a = T.FOUNDATION ∧ b = T.ISSUER) ∨ (a = T.LBO ∧ b = T.ISSUER) ∨ b = T.CLIENT))

/-- The delta `d2` extends `d1`: same snapshot, further mutations staged on
top of those of `d1`. -/
def LedgerDelta.Extends (d2 d1 : LedgerDelta) : Prop :=
  d2.snapshot = d1.snapshot ∧ ∃ more : List Mutation, d2.staged = more ++ d1.staged

/-- The five enumerators of a C++ enumeration have pairwise different
values. -/
def AccountTypeTags.Distinct (T : AccountTypeTags) : Prop :=
  [T.FOUNDATION, T.LBO, T.OPERATOR, T.ISSUER, T.CLIENT].Nodup

instance (T : AccountTypeTags) : Decidable T.Distinct :=
  inferInstanceAs (Decidable [T.FOUNDATION, T.LBO, T.OPERATOR, T.ISSUER, T.CLIENT].Nodup)

/-- The five named account types of the specification. -/
inductive AccountType where
  | FOUNDATION
  | LBO
  | OPERATOR
  | ISSUER
  | CLIENT
  deriving DecidableEq, Repr

/-- The numeric tag of a named account type. -/
def AccountTypeTags.tag (T : AccountTypeTags) : AccountType → Nat
  | .FOUNDATION => T.FOUNDATION
  | .LBO => T.LBO
  | .OPERATOR => T.OPERATOR
  | .ISSUER => T.ISSUER
  | .CLIENT => T.CLIENT

/-- The tiers of the specification's trust hierarchy,
FOUNDATION < LBO/OPERATOR/ISSUER < CLIENT; a smaller tier is more privileged. -/
def tier : AccountType → Nat
  | .FOUNDATION => 0
  | .LBO => 1
  | .OPERATOR => 1
  | .ISSUER => 1
  | .CLIENT => 2

/-- The counter names of the specification, by result code; the validator's
code MALFORMED has no counter of `apply`. -/
def counterName : CreateAccountResultCode → Option String
  | CREATE_ACCOUNT_ALREADY_EXIST => some "op-create-account.failure.already-exist"
  | CREATE_ACCOUNT_UNDERAUTHORIZED => some "op-create-account.failure.underauthorized"
  | CREATE_ACCOUNT_LOW_RESERVE => some "op-create-account.failure.low-reserve"
  | CREATE_ACCOUNT_UNDERFUNDED => some "op-create-account.failure.underfunded"
  | CREATE_ACCOUNT_SUCCESS => some "op-create-account.success.apply"
  | CREATE_ACCOUNT_MALFORMED => none

/-- The dotted form of a counter name. -/
def dotted (name : MetricName) : String := String.intercalate "." name

/-- The inputs the enclosing transaction frame hands to the handler: the source
balance and the reserve at the source's subentry count are non-negative
`int64_t` values (a balance is an amount of stroops, the reserve is the lower
bound a balance must keep), and the source record is bound to the delta. -/
def Receivable (pol : Nat → Int) (s : OpState) : Prop :=
  isInt64 s.mSourceAccount.balance ∧ 0 ≤ s.mSourceAccount.balance ∧
  isInt64 (pol s.mSourceAccount.numSubEntries) ∧ 0 ≤ pol s.mSourceAccount.numSubEntries ∧
  s.delta.loadAccount s.mSourceAccount.accountID ≠ none

instance (pol : Nat → Int) (s : OpState) : Decidable (Receivable pol s) :=
  inferInstanceAs (Decidable
    (isInt64 s.mSourceAccount.balance ∧ 0 ≤ s.mSourceAccount.balance ∧
      isInt64 (pol s.mSourceAccount.numSubEntries) ∧ 0 ≤ pol s.mSourceAccount.numSubEntries ∧
      s.delta.loadAccount s.mSourceAccount.accountID ≠ none))

/-! ## Shape of the results of `doApply` -/

/-- The state after the lookup of the destination. -/
def loaded (op : CreateAccountOp) (s : OpState) : OpState :=
  { s with mDestAccount := s.delta.loadAccount op.destination }

/-- The state left by a failing branch. -/
def failed (op : CreateAccountOp) (s : OpState) (name : MetricName)
    (c : CreateAccountResultCode) : OpState :=
  ((loaded op s).mark name).code c

/-- The source record after the debit. -/
def debited (op : CreateAccountOp) (s : OpState) : AccountEntry :=
  { s.mSourceAccount with balance := s.mSourceAccount.balance + -op.startingBalance }

/-- The record built for the destination. -/
def created (op : CreateAccountOp) (s : OpState) : AccountEntry :=
  { accountID := op.destination, balance := op.startingBalance,
    seqNum := s.delta.startingSequenceNumber, accountType := op.accountType,
    numSubEntries := 0 }

/-- The state left by the success branch. -/
def succeeded (op : CreateAccountOp) (s : OpState) : OpState :=
  { delta := { s.delta with
      staged := Mutation.add (created op s) :: Mutation.change (debited op s) :: s.delta.staged },
    mSourceAccount := debited op s,
    mDestAccount := some (created op s),
    innerResult := CREATE_ACCOUNT_SUCCESS,
    metrics := s.metrics ++ [["op-create-account", "success", "apply"]] }

/-- The conditions under which the success branch is reached and completes. -/
def Succeeds (T : AccountTypeTags) (pol : Nat → Int) (op : CreateAccountOp)
    (s : OpState) : Prop :=
  s.delta.loadAccount op.destination = none ∧
  validateAccountTypes T s.mSourceAccount op = true ∧
  10 ≤ op.startingBalance ∧
  op.startingBalance ≤ sub64 s.mSourceAccount.balance (pol s.mSourceAccount.numSubEntries) ∧
  0 ≤ s.mSourceAccount.balance - op.startingBalance ∧
  s.delta.loadAccount s.mSourceAccount.accountID ≠ none

/-- The counter and the code of each failing branch of `doApply`. -/
def failureBranches : List (MetricName × CreateAccountResultCode) :=
  [(["op-create-account", "failure", "already-exist"], CREATE_ACCOUNT_ALREADY_EXIST),
   (["op-create-account", "failure", "underauthorized"], CREATE_ACCOUNT_UNDERAUTHORIZED),
   (["op-create-account", "failure", "low-reserve"], CREATE_ACCOUNT_LOW_RESERVE),
   (["op-create-account", "failure", "underfunded"], CREATE_ACCOUNT_UNDERFUNDED)]

/-! ## Lemmas on the branches of `doApply` -/

theorem loadAccount_cons (d : LedgerDelta) (m : Mutation) (id : AccountID) :
    LedgerDelta.loadAccount { d with staged := m :: d.staged } id =
      if m.entry.accountID = id then some m.entry else d.loadAccount id := by
  simp only [LedgerDelta.loadAccount, LedgerDelta.visible, List.map_cons, List.cons_append,
    List.find?_cons]
  by_cases h : m.entry.accountID = id
  · have hb : (m.entry.accountID == id) = true := by simpa using h
    rw [hb, if_pos h]
  · have hb : (m.entry.accountID == id) = false := by simpa using h
    rw [hb, if_neg h]

theorem doApply_exists (T : AccountTypeTags) (pol : Nat → Int) (op : CreateAccountOp)
    (s : OpState) (h : (s.delta.loadAccount op.destination).isSome) :
    doApply T pol op s = .ok (false,
      failed op s ["op-create-account", "failure", "already-exist"] CREATE_ACCOUNT_ALREADY_EXIST) := by
  have h' : ¬ (s.delta.loadAccount op.destination).isNone = true := by
    cases hl : s.delta.loadAccount op.destination <;> simp_all
  simp [doApply, h', failed, loaded]

theorem doApply_underauthorized (T : AccountTypeTags) (pol : Nat → Int) (op : CreateAccountOp)
    (s : OpState) (h1 : s.delta.loadAccount op.destination = none)
    (h2 : validateAccountTypes T s.mSourceAccount op = false) :
    doApply T pol op s = .ok (false,
      failed op s ["op-create-account", "failure", "underauthorized"]
        CREATE_ACCOUNT_UNDERAUTHORIZED) := by
  simp [doApply, h1, h2, failed, loaded]

theorem doApply_low_reserve (T : AccountTypeTags) (pol : Nat → Int) (op : CreateAccountOp)
    (s : OpState) (h1 : s.delta.loadAccount op.destination = none)
    (h2 : validateAccountTypes T s.mSourceAccount op = true)
    (h3 : op.startingBalance < 10) :
    doApply T pol op s = .ok (false,
      failed op s ["op-create-account", "failure", "low-reserve"]
        CREATE_ACCOUNT_LOW_RESERVE) := by
  simp [doApply, h1, h2, h3, failed, loaded]

theorem doApply_underfunded (T : AccountTypeTags) (pol : Nat → Int) (op : CreateAccountOp)
    (s : OpState) (h1 : s.delta.loadAccount op.destination = none)
    (h2 : validateAccountTypes T s.mSourceAccount op = true)
    (h3 : ¬ op.startingBalance < 10)
    (h4 : sub64 s.mSourceAccount.balance (pol s.mSourceAccount.numSubEntries)
      < op.startingBalance) :
    doApply T pol op s = .ok (false,
      failed op s ["op-create-account", "failure", "underfunded"]
        CREATE_ACCOUNT_UNDERFUNDED) := by
  simp [doApply, h1, h2, h3, h4, failed, loaded, AccountFrame.getMinimumBalance]

theorem doApply_assert (T : AccountTypeTags) (pol : Nat → Int) (op : CreateAccountOp)
    (s : OpState) (h1 : s.delta.loadAccount op.destination = none)
    (h2 : validateAccountTypes T s.mSourceAccount op = true)
    (h3 : ¬ op.startingBalance < 10)
    (h4 : ¬ sub64 s.mSourceAccount.balance (pol s.mSourceAccount.numSubEntries)
      < op.startingBalance)
    (h5 : s.mSourceAccount.balance + -op.startingBalance < 0) :
    doApply T pol op s = .error Fault.assertFailed := by
  simp [doApply, h1, h2, h3, h4, h5, AccountFrame.getMinimumBalance, AccountFrame.addBalance]

theorem doApply_store_change (T : AccountTypeTags) (pol : Nat → Int) (op : CreateAccountOp)
    (s : OpState) (h1 : s.delta.loadAccount op.destination = none)
    (h2 : validateAccountTypes T s.mSourceAccount op = true)
    (h3 : ¬ op.startingBalance < 10)
    (h4 : ¬ sub64 s.mSourceAccount.balance (pol s.mSourceAccount.numSubEntries)
      < op.startingBalance)
    (h5 : ¬ s.mSourceAccount.balance + -op.startingBalance < 0)
    (h6 : s.delta.loadAccount s.mSourceAccount.accountID = none) :
    doApply T pol op s = .error Fault.storeChangeFailed := by
  simp [doApply, h1, h2, h3, h4, h5, h6, AccountFrame.getMinimumBalance,
    AccountFrame.addBalance, LedgerDelta.storeChange]

theorem doApply_success (T : AccountTypeTags) (pol : Nat → Int) (op : CreateAccountOp)
    (s : OpState) (h1 : s.delta.loadAccount op.destination = none)
    (h2 : validateAccountTypes T s.mSourceAccount op = true)
    (h3 : ¬ op.startingBalance < 10)
    (h4 : ¬ sub64 s.mSourceAccount.balance (pol s.mSourceAccount.numSubEntries)
      < op.startingBalance)
    (h5 : ¬ s.mSourceAccount.balance + -op.startingBalance < 0)
    (h6 : s.delta.loadAccount s.mSourceAccount.accountID ≠ none) :
    doApply T pol op s = .ok (true, succeeded op s) := by
  have hne : s.mSourceAccount.accountID ≠ op.destination := by
    intro h; rw [h] at h6; exact h6 h1
  have h7 : LedgerDelta.loadAccount
      { s.delta with staged := Mutation.change (debited op s) :: s.delta.staged }
      op.destination = none := by
    rw [loadAccount_cons]
    simp [Mutation.entry, debited, hne, h1]
  have h6' : ¬ (s.delta.loadAccount s.mSourceAccount.accountID).isNone = true := by
    cases hl : s.delta.loadAccount s.mSourceAccount.accountID <;> simp_all
  simp only [debited] at h7
  simp [doApply, h1, h2, h3, h4, h5, h6', AccountFrame.getMinimumBalance,
    AccountFrame.addBalance, LedgerDelta.storeChange, LedgerDelta.storeAdd,
    AccountFrame.new, LedgerDelta.getStartingSequenceNumber, h7, succeeded, created,
    debited, OpState.mark, OpState.code]

theorem doApply_ok_cases (T : AccountTypeTags) (pol : Nat → Int) (op : CreateAccountOp)
    (s s' : OpState) (b : Bool) (h : doApply T pol op s = .ok (b, s')) :
    (b = false ∧ ∃ name c, c ≠ CREATE_ACCOUNT_SUCCESS ∧ c ≠ CREATE_ACCOUNT_MALFORMED ∧
      s' = failed op s name c) ∨
    (b = true ∧ s' = succeeded op s ∧ Succeeds T pol op s) := by
  cases h1 : s.delta.loadAccount op.destination with
  | some e =>
    rw [doApply_exists T pol op s (by simp [h1])] at h
    injection h with h; injection h with hb hs
    exact Or.inl ⟨hb.symm, _, _, by decide, by decide, hs.symm⟩
  | none =>
    cases h2 : validateAccountTypes T s.mSourceAccount op with
    | false =>
      rw [doApply_underauthorized T pol op s h1 h2] at h
      injection h with h; injection h with hb hs
      exact Or.inl ⟨hb.symm, _, _, by decide, by decide, hs.symm⟩
    | true =>
      by_cases h3 : op.startingBalance < 10
      · rw [doApply_low_reserve T pol op s h1 h2 h3] at h
        injection h with h; injection h with hb hs
        exact Or.inl ⟨hb.symm, _, _, by decide, by decide, hs.symm⟩
      · by_cases h4 : sub64 s.mSourceAccount.balance (pol s.mSourceAccount.numSubEntries)
            < op.startingBalance
        · rw [doApply_underfunded T pol op s h1 h2 h3 h4] at h
          injection h with h; injection h with hb hs
          exact Or.inl ⟨hb.symm, _, _, by decide, by decide, hs.symm⟩
        · by_cases h5 : s.mSourceAccount.balance + -op.startingBalance < 0
          · rw [doApply_assert T pol op s h1 h2 h3 h4 h5] at h
            cases h
          · by_cases h6 : s.delta.loadAccount s.mSourceAccount.accountID = none
            · rw [doApply_store_change T pol op s h1 h2 h3 h4 h5 h6] at h
              cases h
            · rw [doApply_success T pol op s h1 h2 h3 h4 h5 h6] at h
              injection h with h; injection h with hb hs
              refine Or.inr ⟨hb.symm, hs.symm, h1, h2, ?_, ?_, ?_, h6⟩
              · omega
              · omega
              · omega

theorem failed_code (op : CreateAccountOp) (s : OpState) (name : MetricName)
    (c : CreateAccountResultCode) : (failed op s name c).innerResult = c := rfl

theorem validateAccountTypes_iff_permitted (T : AccountTypeTags) (src : AccountEntry)
    (op : CreateAccountOp) :
    validateAccountTypes T src op = true ↔
      permittedCreation T src.accountType op.accountType := by
  simp [validateAccountTypes, permittedCreation, or_assoc]

theorem doApply_all_cases (T : AccountTypeTags) (pol : Nat → Int) (op : CreateAccountOp)
    (s : OpState) :
    (∃ name c, doApply T pol op s = .ok (false, failed op s name c)) ∨
    doApply T pol op s = .error Fault.assertFailed ∨
    doApply T pol op s = .error Fault.storeChangeFailed ∨
    doApply T pol op s = .ok (true, succeeded op s) := by
  cases h1 : s.delta.loadAccount op.destination with
  | some e => exact Or.inl ⟨_, _, doApply_exists T pol op s (by simp [h1])⟩
  | none =>
    cases h2 : validateAccountTypes T s.mSourceAccount op with
    | false => exact Or.inl ⟨_, _, doApply_underauthorized T pol op s h1 h2⟩
    | true =>
      by_cases h3 : op.startingBalance < 10
      · exact Or.inl ⟨_, _, doApply_low_reserve T pol op s h1 h2 h3⟩
      · by_cases h4 : sub64 s.mSourceAccount.balance (pol s.mSourceAccount.numSubEntries)
            < op.startingBalance
        · exact Or.inl ⟨_, _, doApply_underfunded T pol op s h1 h2 h3 h4⟩
        · by_cases h5 : s.mSourceAccount.balance + -op.startingBalance < 0
          · exact Or.inr (Or.inl (doApply_assert T pol op s h1 h2 h3 h4 h5))
          · by_cases h6 : s.delta.loadAccount s.mSourceAccount.accountID = none
            · exact Or.inr (Or.inr (Or.inl (doApply_store_change T pol op s h1 h2 h3 h4 h5 h6)))
            · exact Or.inr (Or.inr (Or.inr (doApply_success T pol op s h1 h2 h3 h4 h5 h6)))

theorem doApply_ne_storeAddFailed (T : AccountTypeTags) (pol : Nat → Int)
    (op : CreateAccountOp) (s : OpState) :
    doApply T pol op s ≠ .error Fault.storeAddFailed := by
  rcases doApply_all_cases T pol op s with ⟨_, _, h⟩ | h | h | h <;> rw [h] <;> simp

theorem loadAccount_extends (d2 d1 : LedgerDelta) (id : AccountID)
    (hext : d2.Extends d1) (h : (d1.loadAccount id).isSome) :
    (d2.loadAccount id).isSome := by
  obtain ⟨hsnap, more, hst⟩ := hext
  have hv : d2.visible = more.map Mutation.entry ++ d1.visible := by
    simp [LedgerDelta.visible, hsnap, hst]
  simp only [LedgerDelta.loadAccount] at h ⊢
  rw [hv, List.find?_append]
  cases hm : List.find? (fun e => e.accountID == id) (more.map Mutation.entry) with
  | some e => simp
  | none => simpa using h

theorem wrap64_funding (bal min start : Int) (h3 : 10 ≤ start)
    (h4 : start ≤ sub64 bal min) (h5 : 0 ≤ bal - start) (hmin : min ≤ INT64_MAX) :
    min ≤ bal - start := by
  simp only [sub64, wrap64, INT64_MAX] at *
  omega

theorem sub64_exact (bal min : Int) (h : isInt64 (bal - min)) : sub64 bal min = bal - min := by
  simp only [sub64, wrap64, isInt64, INT64_MIN, INT64_MAX] at *
  omega

theorem receivable_exact (pol : Nat → Int) (s : OpState) (hR : Receivable pol s) :
    isInt64 (s.mSourceAccount.balance - pol s.mSourceAccount.numSubEntries) := by
  obtain ⟨hb, h0, hm, hmin, _⟩ := hR
  simp only [isInt64, INT64_MIN, INT64_MAX] at *
  omega

theorem receivable_accepted (T : AccountTypeTags) (pol : Nat → Int) (op : CreateAccountOp)
    (s : OpState) (hR : Receivable pol s)
    (hr : firstMatchingRule T pol op s = CREATE_ACCOUNT_SUCCESS) :
    0 ≤ s.mSourceAccount.balance - op.startingBalance := by
  have h4 : ¬ sub64 s.mSourceAccount.balance (pol s.mSourceAccount.numSubEntries)
      < op.startingBalance := by
    intro h4
    simp only [firstMatchingRule] at hr
    split_ifs at hr
  rw [sub64_exact _ _ (receivable_exact pol s hR)] at h4
  have := hR.2.2.2.1
  omega

theorem doApply_rule_of_accepted (T : AccountTypeTags) (pol : Nat → Int)
    (op : CreateAccountOp) (s : OpState)
    (hacc : firstMatchingRule T pol op s = CREATE_ACCOUNT_SUCCESS →
      0 ≤ s.mSourceAccount.balance - op.startingBalance)
    (hsrc : firstMatchingRule T pol op s = CREATE_ACCOUNT_SUCCESS →
      s.delta.loadAccount s.mSourceAccount.accountID ≠ none) :
    ∃ s', doApply T pol op s =
        .ok (decide (firstMatchingRule T pol op s = CREATE_ACCOUNT_SUCCESS), s') ∧
      s'.innerResult = firstMatchingRule T pol op s := by
  cases h1 : s.delta.loadAccount op.destination with
  | some e =>
    have hr : firstMatchingRule T pol op s = CREATE_ACCOUNT_ALREADY_EXIST := by
      simp [firstMatchingRule, h1]
    rw [hr, doApply_exists T pol op s (by simp [h1])]
    exact ⟨_, rfl, rfl⟩
  | none =>
    cases h2 : validateAccountTypes T s.mSourceAccount op with
    | false =>
      have hr : firstMatchingRule T pol op s = CREATE_ACCOUNT_UNDERAUTHORIZED := by
        simp [firstMatchingRule, h1, h2]
      rw [hr, doApply_underauthorized T pol op s h1 h2]
      exact ⟨_, rfl, rfl⟩
    | true =>
      by_cases h3 : op.startingBalance < 10
      · have hr : firstMatchingRule T pol op s = CREATE_ACCOUNT_LOW_RESERVE := by
          simp [firstMatchingRule, h1, h2, h3, MIN_STARTING_BALANCE]
        rw [hr, doApply_low_reserve T pol op s h1 h2 h3]
        exact ⟨_, rfl, rfl⟩
      · by_cases h4 : sub64 s.mSourceAccount.balance (pol s.mSourceAccount.numSubEntries)
            < op.startingBalance
        · have hr : firstMatchingRule T pol op s = CREATE_ACCOUNT_UNDERFUNDED := by
            simp [firstMatchingRule, h1, h2, h3, h4, MIN_STARTING_BALANCE]
          rw [hr, doApply_underfunded T pol op s h1 h2 h3 h4]
          exact ⟨_, rfl, rfl⟩
        · have hr : firstMatchingRule T pol op s = CREATE_ACCOUNT_SUCCESS := by
            simp [firstMatchingRule, h1, h2, h3, h4, MIN_STARTING_BALANCE]
          have h5 : ¬ s.mSourceAccount.balance + -op.startingBalance < 0 := by
            have := hacc hr; omega
          rw [hr, doApply_success T pol op s h1 h2 h3 h4 h5 (hsrc hr)]
          exact ⟨_, rfl, rfl⟩

/-! ## C1: the result code of `doApply` -/

/-- C1: for every operation, ledger delta, source record and ledger policy the
frame can receive (non-negative `int64_t` balance and reserve, source bound to
the delta), `doApply` returns and sets the result code by the first matching
rule: ALREADY_EXIST if the destination is found, otherwise UNDERAUTHORIZED if
`validateAccountTypes` is false, otherwise LOW_RESERVE if `startingBalance < 10`,
otherwise UNDERFUNDED if `balance - reserve < startingBalance` (the `int64_t`
subtraction being exact), otherwise SUCCESS; the returned value is `true`
exactly when the code is SUCCESS. -/
theorem doApply_first_matching_rule (T : AccountTypeTags) (pol : Nat → Int)
    (op : CreateAccountOp) (s : OpState) (hR : Receivable pol s) :
    (∃ s', doApply T pol op s =
        .ok (decide (firstMatchingRule T pol op s = CREATE_ACCOUNT_SUCCESS), s') ∧
      s'.innerResult = firstMatchingRule T pol op s) ∧
    sub64 s.mSourceAccount.balance (pol s.mSourceAccount.numSubEntries)
      = s.mSourceAccount.balance - pol s.mSourceAccount.numSubEntries :=
  ⟨doApply_rule_of_accepted T pol op s (receivable_accepted T pol op s hR)
      (fun _ => hR.2.2.2.2),
    sub64_exact _ _ (receivable_exact pol s hR)⟩

/-- Scenario S1 is a receivable input and ends with SUCCESS. -/
theorem doApply_first_matching_rule_witness :
    Receivable (fun _ => 0) s1State ∧
    ∃ s', doApply tags0 (fun _ => 0) s1Op s1State =
        .ok (decide (firstMatchingRule tags0 (fun _ => 0) s1Op s1State
          = CREATE_ACCOUNT_SUCCESS), s') ∧
      s'.innerResult = firstMatchingRule tags0 (fun _ => 0) s1Op s1State :=
  ⟨by decide, (doApply_first_matching_rule tags0 (fun _ => 0) s1Op s1State (by decide)).1⟩

/-! ## C2: the payload validator -/

/-- C2: `doCheckValid` returns `true` exactly when `startingBalance > 0` and the
destination differs from the source id; otherwise it returns `false` with code
MALFORMED.  It leaves the delta and the account handles as they were, and its
result, code and counters do not depend on the delta. -/
theorem doCheckValid_iff (sourceID : AccountID) (op : CreateAccountOp) (s : OpState) :
    ((doCheckValid sourceID op s).1 = true ↔
      (0 < op.startingBalance ∧ op.destination ≠ sourceID)) ∧
    ((doCheckValid sourceID op s).1 = true ∨
      ((doCheckValid sourceID op s).1 = false ∧
        (doCheckValid sourceID op s).2.innerResult = CREATE_ACCOUNT_MALFORMED)) ∧
    (doCheckValid sourceID op s).2.delta = s.delta ∧
    (doCheckValid sourceID op s).2.mSourceAccount = s.mSourceAccount ∧
    (doCheckValid sourceID op s).2.mDestAccount = s.mDestAccount ∧
    (∀ d : LedgerDelta,
      (doCheckValid sourceID op { s with delta := d }).1 = (doCheckValid sourceID op s).1 ∧
      (doCheckValid sourceID op { s with delta := d }).2.innerResult
        = (doCheckValid sourceID op s).2.innerResult ∧
      (doCheckValid sourceID op { s with delta := d }).2.metrics
        = (doCheckValid sourceID op s).2.metrics ∧
      (doCheckValid sourceID op { s with delta := d }).2.delta = d) := by
  by_cases h1 : op.startingBalance ≤ 0
  · have h1' : ¬ 0 < op.startingBalance := by omega
    simp [doCheckValid, h1, h1', OpState.mark, OpState.code]
  · have h1' : 0 < op.startingBalance := by omega
    by_cases h2 : op.destination = sourceID
    · simp [doCheckValid, h1, h2, OpState.mark, OpState.code]
    · simp [doCheckValid, h1, h1', h2, OpState.mark, OpState.code]

/-! ## C3: the authorization arbiter -/

/-- C3: for all tags, `validateAccountTypes` is `true` exactly when the source is
FOUNDATION and the destination is LBO, OPERATOR or ISSUER, or the source is LBO
and the destination is ISSUER, or the destination is CLIENT. -/
theorem validateAccountTypes_iff (T : AccountTypeTags) (src : AccountEntry)
    (op : CreateAccountOp) :
    validateAccountTypes T src op = true ↔
      ((src.accountType = T.FOUNDATION ∧
          (op.accountType = T.LBO ∨ op.accountType = T.OPERATOR ∨
            op.accountType = T.ISSUER)) ∨
        (src.accountType = T.LBO ∧ op.accountType = T.ISSUER) ∨
        op.accountType = T.CLIENT) := by
  rw [validateAccountTypes_iff_permitted, permittedCreation]
  tauto

/-! ## C4: failures stage nothing -/

/-- C4: when `doApply` returns with a code other than SUCCESS (which is then one
of ALREADY_EXIST, UNDERAUTHORIZED, LOW_RESERVE, UNDERFUNDED), the delta and the
source record are the ones before the call.  Hence every returned result either
left both untouched or staged the whole pair: the debited source by
`storeChange` and, on top of it, the new record by `storeAdd`. -/
theorem doApply_failure_stages_nothing (T : AccountTypeTags) (pol : Nat → Int)
    (op : CreateAccountOp) (s s' : OpState) (b : Bool)
    (h : doApply T pol op s = .ok (b, s')) :
    (s'.innerResult ≠ CREATE_ACCOUNT_SUCCESS →
      s'.innerResult ∈ [CREATE_ACCOUNT_ALREADY_EXIST, CREATE_ACCOUNT_UNDERAUTHORIZED,
        CREATE_ACCOUNT_LOW_RESERVE, CREATE_ACCOUNT_UNDERFUNDED] ∧
      s'.delta = s.delta ∧ s'.mSourceAccount = s.mSourceAccount) ∧
    ((s'.delta = s.delta ∧ s'.mSourceAccount = s.mSourceAccount) ∨
      (s'.mSourceAccount.balance = s.mSourceAccount.balance - op.startingBalance ∧
        ∃ dest, s'.delta.staged =
          Mutation.add dest :: Mutation.change s'.mSourceAccount :: s.delta.staged)) := by
  rcases doApply_ok_cases T pol op s s' b h with ⟨_, name, c, hc1, hc2, hs⟩ | ⟨_, hs, _⟩
  · subst hs
    refine ⟨fun _ => ⟨?_, rfl, rfl⟩, Or.inl ⟨rfl, rfl⟩⟩
    rw [failed_code]
    cases c <;> simp at hc1 hc2 ⊢
  · subst hs
    refine ⟨fun hne => absurd rfl hne, Or.inr ⟨?_, created op s, rfl⟩⟩
    simp only [succeeded, debited]
    omega

/-- Scenario S5 (UNDERFUNDED) returns and leaves the delta and the source
balance of 100 untouched. -/
theorem doApply_failure_stages_nothing_witness :
    doApply tags0 s5Policy s5Op s5State = .ok (false,
      failed s5Op s5State ["op-create-account", "failure", "underfunded"]
        CREATE_ACCOUNT_UNDERFUNDED) ∧
    (failed s5Op s5State ["op-create-account", "failure", "underfunded"]
        CREATE_ACCOUNT_UNDERFUNDED).delta = s5State.delta ∧
    (failed s5Op s5State ["op-create-account", "failure", "underfunded"]
        CREATE_ACCOUNT_UNDERFUNDED).mSourceAccount.balance = 100 :=
  have h : doApply tags0 s5Policy s5Op s5State = .ok (false,
      failed s5Op s5State ["op-create-account", "failure", "underfunded"]
        CREATE_ACCOUNT_UNDERFUNDED) := by decide
  have r := (doApply_failure_stages_nothing tags0 s5Policy s5Op s5State _ false h).1
    (by decide)
  ⟨h, r.2.1, by rw [r.2.2]; rfl⟩

/-! ## C5: conservation of the native balance -/

/-- C5: after a successful `doApply` the balances of the source and of the new
record add up to the source balance before the call, both as held by the frame
and as visible through the delta; the staged mutations are those before the
call plus the update of the source and exactly one insertion, of a record whose
id was not visible before. -/
theorem doApply_conserves_balance (T : AccountTypeTags) (pol : Nat → Int)
    (op : CreateAccountOp) (s s' : OpState) (b : Bool)
    (h : doApply T pol op s = .ok (b, s'))
    (hc : s'.innerResult = CREATE_ACCOUNT_SUCCESS) :
    ∃ dest, s'.mDestAccount = some dest ∧
      s'.mSourceAccount.balance + dest.balance = s.mSourceAccount.balance ∧
      s'.delta.staged =
        Mutation.add dest :: Mutation.change s'.mSourceAccount :: s.delta.staged ∧
      (s'.delta.staged.filter Mutation.isAdd).length =
        (s.delta.staged.filter Mutation.isAdd).length + 1 ∧
      s'.delta.snapshot = s.delta.snapshot ∧
      s.delta.loadAccount dest.accountID = none ∧
      s'.delta.loadAccount dest.accountID = some dest ∧
      s'.delta.loadAccount s.mSourceAccount.accountID = some s'.mSourceAccount := by
  rcases doApply_ok_cases T pol op s s' b h with ⟨_, name, c, hc1, _, hs⟩ | ⟨_, hs, hS⟩
  · subst hs
    rw [failed_code] at hc
    exact absurd hc hc1
  · subst hs
    obtain ⟨h1, _, _, _, _, h6⟩ := hS
    have hne : s.mSourceAccount.accountID ≠ op.destination := by
      intro e; rw [e] at h6; exact h6 h1
    refine ⟨created op s, rfl, ?_, rfl, ?_, rfl, h1, ?_, ?_⟩
    · simp only [succeeded, debited, created]
      omega
    · simp [succeeded, Mutation.isAdd]
    · simp [succeeded, LedgerDelta.loadAccount, LedgerDelta.visible, Mutation.entry, created]
    · simp [succeeded, LedgerDelta.loadAccount, LedgerDelta.visible, Mutation.entry, created,
        debited, hne.symm]

/-- Scenario S1 is a successful application: 900 + 100 = 1000. -/
theorem doApply_conserves_balance_witness :
    doApply tags0 (fun _ => 0) s1Op s1State = .ok (true, succeeded s1Op s1State) ∧
    ∃ dest, (succeeded s1Op s1State).mDestAccount = some dest ∧
      (succeeded s1Op s1State).mSourceAccount.balance + dest.balance = 1000 :=
  have h : doApply tags0 (fun _ => 0) s1Op s1State = .ok (true, succeeded s1Op s1State) := by
    decide
  have ⟨dest, hd, hb, _⟩ :=
    doApply_conserves_balance tags0 (fun _ => 0) s1Op s1State _ true h rfl
  ⟨h, dest, hd, hb⟩

/-! ## C6: the staged records -/

/-- C6: a successful `doApply` stages, by `storeAdd`, the record with id
`op.destination`, the header's starting sequence number, balance
`op.startingBalance`, type `op.accountType` and no subentries, on top of the
`storeChange` of the source record whose balance was first decremented by
exactly `op.startingBalance`. -/
theorem doApply_staged_records (T : AccountTypeTags) (pol : Nat → Int)
    (op : CreateAccountOp) (s s' : OpState) (b : Bool)
    (h : doApply T pol op s = .ok (b, s'))
    (hc : s'.innerResult = CREATE_ACCOUNT_SUCCESS) :
    s'.delta.staged =
      Mutation.add
        { accountID := op.destination,
          seqNum := s.delta.getStartingSequenceNumber,
          balance := op.startingBalance,
          accountType := op.accountType,
          numSubEntries := 0 } ::
      Mutation.change
        { s.mSourceAccount with balance := s.mSourceAccount.balance - op.startingBalance } ::
      s.delta.staged ∧
    s'.mSourceAccount =
      { s.mSourceAccount with balance := s.mSourceAccount.balance - op.startingBalance } := by
  rcases doApply_ok_cases T pol op s s' b h with ⟨_, name, c, hc1, _, hs⟩ | ⟨_, hs, _⟩
  · subst hs
    rw [failed_code] at hc
    exact absurd hc hc1
  · subst hs
    have e : s.mSourceAccount.balance + -op.startingBalance
        = s.mSourceAccount.balance - op.startingBalance := by omega
    simp [succeeded, created, debited, LedgerDelta.getStartingSequenceNumber, e]

/-- Scenario S1: the source goes from 1000 to 900 and the record staged for `B`
has balance 100, the starting sequence number and type CLIENT. -/
theorem doApply_staged_records_witness :
    doApply tags0 (fun _ => 0) s1Op s1State = .ok (true, succeeded s1Op s1State) ∧
    (succeeded s1Op s1State).delta.staged =
      [Mutation.add
          { accountID := 2, seqNum := 4294967296, balance := 100, accountType := 4,
            numSubEntries := 0 },
        Mutation.change
          { accountID := 1, seqNum := 7, balance := 900, accountType := 0,
            numSubEntries := 0 }] ∧
    (succeeded s1Op s1State).mSourceAccount.balance = 900 :=
  have h : doApply tags0 (fun _ => 0) s1Op s1State = .ok (true, succeeded s1Op s1State) := by
    decide
  have r := doApply_staged_records tags0 (fun _ => 0) s1Op s1State _ true h rfl
  ⟨h, r.1, by rw [r.2]; rfl⟩

/-! ## C7: authorization closure -/

/-- C7: when the destination is absent from the delta and the pair (source
type, requested type) is not in the permitted-creation relation, `doApply`
returns `false` with code UNDERAUTHORIZED, whatever the starting balance, the
source balance and the ledger policy are. -/
theorem doApply_authorization_closure (T : AccountTypeTags) (pol : Nat → Int)
    (op : CreateAccountOp) (s : OpState)
    (h1 : s.delta.loadAccount op.destination = none)
    (hR : ¬ permittedCreation T s.mSourceAccount.accountType op.accountType) :
    ∃ s', doApply T pol op s = .ok (false, s') ∧
      s'.innerResult = CREATE_ACCOUNT_UNDERAUTHORIZED := by
  have h2 : validateAccountTypes T s.mSourceAccount op = false := by
    cases hv : validateAccountTypes T s.mSourceAccount op with
    | false => rfl
    | true => exact absurd ((validateAccountTypes_iff_permitted T _ _).mp hv) hR
  exact ⟨_, doApply_underauthorized T pol op s h1 h2, rfl⟩

/-- Scenario S2: a CLIENT source asking for an ISSUER account is refused. -/
theorem doApply_authorization_closure_witness :
    s2State.delta.loadAccount s2Op.destination = none ∧
    ¬ permittedCreation tags0 s2State.mSourceAccount.accountType s2Op.accountType ∧
    ∃ s', doApply tags0 (fun _ => 0) s2Op s2State = .ok (false, s') ∧
      s'.innerResult = CREATE_ACCOUNT_UNDERAUTHORIZED :=
  ⟨by decide, by decide,
    doApply_authorization_closure tags0 (fun _ => 0) s2Op s2State (by decide) (by decide)⟩

/-! ## C8: an account is created at most once -/

/-- C8: after a successful `doApply` that created `op.destination`, every
`doApply` on a state whose delta is the resulting one or extends it, and whose
operation names the same destination, returns `false` with code ALREADY_EXIST
and leaves the delta and the source record untouched.  The id was not visible
before the creation, and `doApply` never ends in a rejected `storeAdd`: it does
not insert an id that `loadAccount` finds. -/
theorem doApply_creates_once (T : AccountTypeTags) (pol : Nat → Int)
    (op : CreateAccountOp) (s s1 : OpState) (b : Bool)
    (h : doApply T pol op s = .ok (b, s1))
    (hc : s1.innerResult = CREATE_ACCOUNT_SUCCESS) :
    s.delta.loadAccount op.destination = none ∧
    (∀ (T2 : AccountTypeTags) (pol2 : Nat → Int) (op2 : CreateAccountOp) (s2 : OpState),
      s2.delta.Extends s1.delta → op2.destination = op.destination →
      ∃ s3, doApply T2 pol2 op2 s2 = .ok (false, s3) ∧
        s3.innerResult = CREATE_ACCOUNT_ALREADY_EXIST ∧
        s3.delta = s2.delta ∧ s3.mSourceAccount = s2.mSourceAccount) ∧
    (∀ (T3 : AccountTypeTags) (pol3 : Nat → Int) (op3 : CreateAccountOp) (s3 : OpState),
      doApply T3 pol3 op3 s3 ≠ .error Fault.storeAddFailed) := by
  rcases doApply_ok_cases T pol op s s1 b h with ⟨_, name, c, hc1, _, hs⟩ | ⟨_, hs, hS⟩
  · subst hs
    rw [failed_code] at hc
    exact absurd hc hc1
  · subst hs
    refine ⟨hS.1, ?_, doApply_ne_storeAddFailed⟩
    intro T2 pol2 op2 s2 hext hdest
    have hfound : ((succeeded op s).delta.loadAccount op.destination).isSome := by
      simp [succeeded, LedgerDelta.loadAccount, LedgerDelta.visible, Mutation.entry, created]
    have h2 := loadAccount_extends s2.delta _ op.destination hext hfound
    rw [← hdest] at h2
    exact ⟨_, doApply_exists T2 pol2 op2 s2 h2, rfl, rfl, rfl⟩

/-- After scenario S1 created `B`, a second request for `B` on the resulting
state is refused with ALREADY_EXIST. -/
theorem doApply_creates_once_witness :
    doApply tags0 (fun _ => 0) s1Op s1State = .ok (true, succeeded s1Op s1State) ∧
    ∃ s3, doApply tags0 (fun _ => 0) againOp (succeeded s1Op s1State) = .ok (false, s3) ∧
      s3.innerResult = CREATE_ACCOUNT_ALREADY_EXIST ∧
      s3.delta = (succeeded s1Op s1State).delta ∧
      s3.mSourceAccount = (succeeded s1Op s1State).mSourceAccount :=
  have h : doApply tags0 (fun _ => 0) s1Op s1State = .ok (true, succeeded s1Op s1State) := by
    decide
  ⟨h, (doApply_creates_once tags0 (fun _ => 0) s1Op s1State _ true h rfl).2.1
    tags0 (fun _ => 0) againOp (succeeded s1Op s1State) ⟨rfl, [], rfl⟩ rfl⟩

/-! ## C9: the reserve of the new account -/

/-- C9 (as stated) fails: under a policy with `minimum_balance(0) = 50` the
request for a starting balance of 20 succeeds, and the new record holds 20,
below its reserve. -/
theorem doApply_new_account_reserve_counterexample :
    doApply tags0 s5Policy twentyOp s1State = .ok (true, succeeded twentyOp s1State) ∧
    (succeeded twentyOp s1State).innerResult = CREATE_ACCOUNT_SUCCESS ∧
    (succeeded twentyOp s1State).mDestAccount = some (created twentyOp s1State) ∧
    (created twentyOp s1State).balance
      < s5Policy (created twentyOp s1State).numSubEntries := by
  decide

/-- C9 (amended): after a successful `doApply` the new record, staged by
`storeAdd`, has no subentries and balance `op.startingBalance`, which is at least
`MIN_STARTING_BALANCE = 10`; it satisfies `balance ≥ minimum_balance(subentry
count)` for every ledger policy with `minimum_balance(0) ≤ 10`. -/
theorem doApply_new_account_reserve (T : AccountTypeTags) (pol : Nat → Int)
    (op : CreateAccountOp) (s s' : OpState) (b : Bool)
    (h : doApply T pol op s = .ok (b, s'))
    (hc : s'.innerResult = CREATE_ACCOUNT_SUCCESS) :
    ∃ dest, s'.mDestAccount = some dest ∧
      s'.delta.staged.head? = some (Mutation.add dest) ∧
      dest.numSubEntries = 0 ∧
      dest.balance = op.startingBalance ∧
      MIN_STARTING_BALANCE ≤ dest.balance ∧
      (pol 0 ≤ MIN_STARTING_BALANCE → pol dest.numSubEntries ≤ dest.balance) := by
  rcases doApply_ok_cases T pol op s s' b h with ⟨_, name, c, hc1, _, hs⟩ | ⟨_, hs, hS⟩
  · subst hs
    rw [failed_code] at hc
    exact absurd hc hc1
  · subst hs
    obtain ⟨_, _, h3, _⟩ := hS
    refine ⟨created op s, rfl, rfl, rfl, rfl, h3, ?_⟩
    intro hp
    simp only [created, MIN_STARTING_BALANCE] at hp ⊢
    omega

/-- Scenario S1 (reserve 0): the new record holds 100 ≥ 10. -/
theorem doApply_new_account_reserve_witness :
    doApply tags0 (fun _ => 0) s1Op s1State = .ok (true, succeeded s1Op s1State) ∧
    ∃ dest, (succeeded s1Op s1State).mDestAccount = some dest ∧
      dest.balance = 100 ∧ MIN_STARTING_BALANCE ≤ dest.balance :=
  have h : doApply tags0 (fun _ => 0) s1Op s1State = .ok (true, succeeded s1Op s1State) := by
    decide
  have ⟨dest, hd, _, _, hb, hm, _⟩ :=
    doApply_new_account_reserve tags0 (fun _ => 0) s1Op s1State _ true h rfl
  ⟨h, dest, hd, hb, hm⟩

/-! ## C10: the reserve of the source account -/

/-- C10: on the inputs the frame can receive (non-negative `int64_t` balance and
reserve, source bound to the delta), after a successful `doApply` the source
record staged by `storeChange` has a balance of at least
`minimum_balance(subentry count)`.  In particular the boundary case
`balance - reserve = startingBalance`, on the path that reaches the funding
check (destination absent, permitted types, `startingBalance ≥ 10`), succeeds
and leaves the source exactly at its reserve. -/
theorem doApply_source_reserve (T : AccountTypeTags) (pol : Nat → Int)
    (op : CreateAccountOp) (s : OpState) (hR : Receivable pol s) :
    (∀ (b : Bool) (s' : OpState), doApply T pol op s = .ok (b, s') →
      s'.innerResult = CREATE_ACCOUNT_SUCCESS →
      pol s'.mSourceAccount.numSubEntries ≤ s'.mSourceAccount.balance ∧
      ∃ dest, s'.delta.staged =
        Mutation.add dest :: Mutation.change s'.mSourceAccount :: s.delta.staged) ∧
    (s.delta.loadAccount op.destination = none →
      validateAccountTypes T s.mSourceAccount op = true →
      10 ≤ op.startingBalance →
      s.mSourceAccount.balance - pol s.mSourceAccount.numSubEntries = op.startingBalance →
      ∃ s', doApply T pol op s = .ok (true, s') ∧
        s'.innerResult = CREATE_ACCOUNT_SUCCESS ∧
        s'.mSourceAccount.balance = pol s'.mSourceAccount.numSubEntries ∧
        ∃ dest, s'.delta.staged =
          Mutation.add dest :: Mutation.change s'.mSourceAccount :: s.delta.staged) := by
  have hex := receivable_exact pol s hR
  obtain ⟨_, _, hm, hmin, hsrc⟩ := hR
  constructor
  · intro b s' h hc
    rcases doApply_ok_cases T pol op s s' b h with ⟨_, name, c, hc1, _, hs⟩ | ⟨_, hs, hS⟩
    · subst hs
      rw [failed_code] at hc
      exact absurd hc hc1
    · subst hs
      obtain ⟨_, _, h3, h4, h5, _⟩ := hS
      refine ⟨?_, created op s, rfl⟩
      have := wrap64_funding _ _ _ h3 h4 h5 hm.2
      simp only [succeeded, debited]
      omega
  · intro h1 h2 h3 hb
    have hx : sub64 s.mSourceAccount.balance (pol s.mSourceAccount.numSubEntries)
        = op.startingBalance := by
      rw [sub64_exact _ _ hex, hb]
    have h4 : ¬ sub64 s.mSourceAccount.balance (pol s.mSourceAccount.numSubEntries)
        < op.startingBalance := by
      rw [hx]; omega
    have h5 : ¬ s.mSourceAccount.balance + -op.startingBalance < 0 := by omega
    refine ⟨_, doApply_success T pol op s h1 h2 (by omega) h4 h5 hsrc, rfl, ?_,
      created op s, rfl⟩
    simp only [succeeded, debited]
    omega

/-- The boundary case with a source holding 100, a reserve of 50 and a starting
balance of 50 succeeds and leaves the source at 50. -/
theorem doApply_source_reserve_witness :
    Receivable s5Policy s5State ∧
    s5State.mSourceAccount.balance - s5Policy s5State.mSourceAccount.numSubEntries
      = fiftyOp.startingBalance ∧
    ∃ s', doApply tags0 s5Policy fiftyOp s5State = .ok (true, s') ∧
      s'.innerResult = CREATE_ACCOUNT_SUCCESS ∧
      s'.mSourceAccount.balance = s5Policy s'.mSourceAccount.numSubEntries :=
  have ⟨s', h, hc, hb, _⟩ :=
    (doApply_source_reserve tags0 s5Policy fiftyOp s5State (by decide)).2
      (by decide) (by decide) (by decide) (by decide)
  ⟨by decide, by decide, s', h, hc, hb⟩

theorem debit_accepted_of_exact (T : AccountTypeTags) (pol : Nat → Int)
    (op : CreateAccountOp) (s : OpState)
    (hmin : 0 ≤ pol s.mSourceAccount.numSubEntries)
    (hno : isInt64 (s.mSourceAccount.balance - pol s.mSourceAccount.numSubEntries)) :
    (firstMatchingRule T pol op s = CREATE_ACCOUNT_SUCCESS →
      (AccountFrame.addBalance s.mSourceAccount (-op.startingBalance)).1 = true ∧
      (AccountFrame.addBalance s.mSourceAccount (-op.startingBalance)).2.balance
        = s.mSourceAccount.balance - op.startingBalance ∧
      0 ≤ s.mSourceAccount.balance - op.startingBalance) ∧
    doApply T pol op s ≠ .error Fault.assertFailed := by
  have key : ¬ sub64 s.mSourceAccount.balance (pol s.mSourceAccount.numSubEntries)
      < op.startingBalance → ¬ s.mSourceAccount.balance + -op.startingBalance < 0 := by
    intro h4
    rw [sub64_exact _ _ hno] at h4
    omega
  constructor
  · intro hr
    have h4 : ¬ sub64 s.mSourceAccount.balance (pol s.mSourceAccount.numSubEntries)
        < op.startingBalance := by
      intro h4
      simp only [firstMatchingRule] at hr
      split_ifs at hr
    have h5 := key h4
    simp only [AccountFrame.addBalance, if_neg h5]
    exact ⟨trivial, by omega, by omega⟩
  · intro habs
    cases h1 : s.delta.loadAccount op.destination with
    | some e =>
      rw [doApply_exists T pol op s (by simp [h1])] at habs
      cases habs
    | none =>
      cases h2 : validateAccountTypes T s.mSourceAccount op with
      | false =>
        rw [doApply_underauthorized T pol op s h1 h2] at habs
        cases habs
      | true =>
        by_cases h3 : op.startingBalance < 10
        · rw [doApply_low_reserve T pol op s h1 h2 h3] at habs
          cases habs
        · by_cases h4 : sub64 s.mSourceAccount.balance (pol s.mSourceAccount.numSubEntries)
              < op.startingBalance
          · rw [doApply_underfunded T pol op s h1 h2 h3 h4] at habs
            cases habs
          · have h5 := key h4
            by_cases h6 : s.delta.loadAccount s.mSourceAccount.accountID = none
            · rw [doApply_store_change T pol op s h1 h2 h3 h4 h5 h6] at habs
              cases habs
            · rw [doApply_success T pol op s h1 h2 h3 h4 h5 h6] at habs
              cases habs

/-! ## C11: the debit at its call site -/

/-- C11: on the inputs the frame can receive (non-negative `int64_t` balance and
reserve, source bound to the delta), whenever the existence, authorization,
low-reserve and funding checks of `doApply` pass, `addBalance` accepts the debit
by `op.startingBalance`: the resulting balance is `balance - startingBalance`
and is not negative, and `doApply` never ends in a failed assertion. -/
theorem doApply_debit_accepted (T : AccountTypeTags) (pol : Nat → Int)
    (op : CreateAccountOp) (s : OpState) (hR : Receivable pol s) :
    (s.delta.loadAccount op.destination = none →
      validateAccountTypes T s.mSourceAccount op = true →
      ¬ op.startingBalance < 10 →
      ¬ sub64 s.mSourceAccount.balance (pol s.mSourceAccount.numSubEntries)
        < op.startingBalance →
      (AccountFrame.addBalance s.mSourceAccount (-op.startingBalance)).1 = true ∧
      (AccountFrame.addBalance s.mSourceAccount (-op.startingBalance)).2.balance
        = s.mSourceAccount.balance - op.startingBalance ∧
      0 ≤ s.mSourceAccount.balance - op.startingBalance) ∧
    doApply T pol op s ≠ .error Fault.assertFailed := by
  have g := debit_accepted_of_exact T pol op s hR.2.2.2.1 (receivable_exact pol s hR)
  refine ⟨fun h1 h2 h3 h4 => g.1 ?_, g.2⟩
  simp [firstMatchingRule, h1, h2, h3, h4, MIN_STARTING_BALANCE]

/-- Scenario S1 (reserve 0, balance 1000): the four checks pass and the debit
of 100 is accepted. -/
theorem doApply_debit_accepted_witness :
    Receivable (fun _ => 0) s1State ∧
    (AccountFrame.addBalance s1State.mSourceAccount (-s1Op.startingBalance)).1 = true ∧
    doApply tags0 (fun _ => 0) s1Op s1State ≠ .error Fault.assertFailed :=
  have r := doApply_debit_accepted tags0 (fun _ => 0) s1Op s1State (by decide)
  ⟨by decide, (r.1 (by decide) (by decide) (by decide) (by decide)).1, r.2⟩

/-! ## C12: the frame of a successful application -/

/-- C12: a successful `doApply` stages exactly two mutations on top of those
already staged, the `storeChange` of the source and the `storeAdd` of the
destination; snapshot and header are untouched; the source keeps its id,
sequence number, type and subentry count; and every account id other than the
source's and the destination's loads the same record after the call as
before. -/
theorem doApply_mutation_pair (T : AccountTypeTags) (pol : Nat → Int)
    (op : CreateAccountOp) (s s' : OpState) (b : Bool)
    (h : doApply T pol op s = .ok (b, s'))
    (hc : s'.innerResult = CREATE_ACCOUNT_SUCCESS) :
    (∃ dest, dest.accountID = op.destination ∧
      s'.delta.staged =
        [Mutation.add dest, Mutation.change s'.mSourceAccount] ++ s.delta.staged) ∧
    s'.delta.snapshot = s.delta.snapshot ∧
    s'.delta.startingSequenceNumber = s.delta.startingSequenceNumber ∧
    s'.mSourceAccount.accountID = s.mSourceAccount.accountID ∧
    s'.mSourceAccount.seqNum = s.mSourceAccount.seqNum ∧
    s'.mSourceAccount.accountType = s.mSourceAccount.accountType ∧
    s'.mSourceAccount.numSubEntries = s.mSourceAccount.numSubEntries ∧
    (∀ id : AccountID, id ≠ s.mSourceAccount.accountID → id ≠ op.destination →
      s'.delta.loadAccount id = s.delta.loadAccount id) := by
  rcases doApply_ok_cases T pol op s s' b h with ⟨_, name, c, hc1, _, hs⟩ | ⟨_, hs, _⟩
  · subst hs
    rw [failed_code] at hc
    exact absurd hc hc1
  · subst hs
    refine ⟨⟨created op s, rfl, rfl⟩, rfl, rfl, rfl, rfl, rfl, rfl, ?_⟩
    intro id h1 h2
    have e : (succeeded op s).delta =
        { ({ s.delta with staged := Mutation.change (debited op s) :: s.delta.staged }
            : LedgerDelta) with
          staged := Mutation.add (created op s) ::
            Mutation.change (debited op s) :: s.delta.staged } := rfl
    rw [e, loadAccount_cons, loadAccount_cons]
    simp only [Mutation.entry, created, debited]
    rw [if_neg (Ne.symm h2), if_neg (Ne.symm h1)]

/-- Scenario S1 over a snapshot that also holds a bystander `C = 3`: two
mutations are staged and `C` loads as before. -/
theorem doApply_mutation_pair_witness :
    doApply tags0 (fun _ => 0) s1Op crowdedState = .ok (true, succeeded s1Op crowdedState) ∧
    (succeeded s1Op crowdedState).delta.staged.length = 2 ∧
    (succeeded s1Op crowdedState).delta.loadAccount 3 = some bystander :=
  have h : doApply tags0 (fun _ => 0) s1Op crowdedState
      = .ok (true, succeeded s1Op crowdedState) := by decide
  have r := doApply_mutation_pair tags0 (fun _ => 0) s1Op crowdedState _ true h rfl
  ⟨h, by obtain ⟨_, _, e⟩ := r.1; rw [e]; rfl,
    by rw [r.2.2.2.2.2.2.2 3 (by decide) (by decide)]; decide⟩

/-! ## C13: the tier reading of the authorization matrix -/

/-- C13: for pairwise different tag values and every pair of the five named
account types, if `validateAccountTypes` is `true` then the tier of the source
is at most the tier of the destination or the destination is CLIENT;
equivalently, when the tier of the source is greater than the tier of the
destination, validation fails. -/
theorem validateAccountTypes_tier (T : AccountTypeTags) (hT : T.Distinct)
    (a d : AccountType) (src : AccountEntry) (op : CreateAccountOp)
    (ha : src.accountType = T.tag a) (hd : op.accountType = T.tag d) :
    (validateAccountTypes T src op = true → tier a ≤ tier d ∨ d = AccountType.CLIENT) ∧
    (tier d < tier a → validateAccountTypes T src op = false) := by
  have hv := validateAccountTypes_iff_permitted T src op
  simp only [AccountTypeTags.Distinct, List.nodup_cons, List.mem_cons, List.mem_singleton,
    List.not_mem_nil, not_or, List.nodup_nil] at hT
  obtain ⟨⟨h12, h13, h14, h15⟩, ⟨h23, h24, h25⟩, ⟨h34, h35⟩, ⟨h45, _⟩, _⟩ := hT
  have key : validateAccountTypes T src op = true → tier a ≤ tier d := by
    intro hval
    have hp := hv.mp hval
    simp only [permittedCreation, ha, hd] at hp
    cases a <;> cases d <;> simp only [AccountTypeTags.tag, tier] at hp ⊢ <;> omega
  refine ⟨fun hval => Or.inl (key hval), fun hlt => ?_⟩
  cases hval : validateAccountTypes T src op with
  | false => rfl
  | true => have := key hval; omega

/-- A CLIENT source asking for an ISSUER account (scenario S2): the source tier
2 is greater than the destination tier 1, and validation fails. -/
theorem validateAccountTypes_tier_witness :
    tags0.Distinct ∧
    tier AccountType.ISSUER < tier AccountType.CLIENT ∧
    validateAccountTypes tags0 s2Source s2Op = false :=
  ⟨by decide, by decide,
    (validateAccountTypes_tier tags0 (by decide) AccountType.CLIENT AccountType.ISSUER
      s2Source s2Op rfl rfl).2 (by decide)⟩

/-! ## Further lemmas on the results of `doApply` -/

theorem doApply_ok_branch (T : AccountTypeTags) (pol : Nat → Int) (op : CreateAccountOp)
    (s s' : OpState) (b : Bool) (h : doApply T pol op s = .ok (b, s')) :
    (b = false ∧ ∃ p ∈ failureBranches, s' = failed op s p.1 p.2) ∨
    (b = true ∧ s' = succeeded op s ∧ Succeeds T pol op s) := by
  have m1 : (["op-create-account", "failure", "already-exist"],
      CREATE_ACCOUNT_ALREADY_EXIST) ∈ failureBranches := by simp [failureBranches]
  have m2 : (["op-create-account", "failure", "underauthorized"],
      CREATE_ACCOUNT_UNDERAUTHORIZED) ∈ failureBranches := by simp [failureBranches]
  have m3 : (["op-create-account", "failure", "low-reserve"],
      CREATE_ACCOUNT_LOW_RESERVE) ∈ failureBranches := by simp [failureBranches]
  have m4 : (["op-create-account", "failure", "underfunded"],
      CREATE_ACCOUNT_UNDERFUNDED) ∈ failureBranches := by simp [failureBranches]
  rcases doApply_ok_cases T pol op s s' b h with ⟨hb, _⟩ | hsucc
  · left
    refine ⟨hb, ?_⟩
    subst hb
    cases h1 : s.delta.loadAccount op.destination with
    | some e =>
      rw [doApply_exists T pol op s (by simp [h1])] at h
      injection h with h; injection h with _ hs
      exact ⟨_, m1, hs.symm⟩
    | none =>
      cases h2 : validateAccountTypes T s.mSourceAccount op with
      | false =>
        rw [doApply_underauthorized T pol op s h1 h2] at h
        injection h with h; injection h with _ hs
        exact ⟨_, m2, hs.symm⟩
      | true =>
        by_cases h3 : op.startingBalance < 10
        · rw [doApply_low_reserve T pol op s h1 h2 h3] at h
          injection h with h; injection h with _ hs
          exact ⟨_, m3, hs.symm⟩
        · by_cases h4 : sub64 s.mSourceAccount.balance (pol s.mSourceAccount.numSubEntries)
              < op.startingBalance
          · rw [doApply_underfunded T pol op s h1 h2 h3 h4] at h
            injection h with h; injection h with _ hs
            exact ⟨_, m4, hs.symm⟩
          · by_cases h5 : s.mSourceAccount.balance + -op.startingBalance < 0
            · rw [doApply_assert T pol op s h1 h2 h3 h4 h5] at h
              cases h
            · by_cases h6 : s.delta.loadAccount s.mSourceAccount.accountID = none
              · rw [doApply_store_change T pol op s h1 h2 h3 h4 h5 h6] at h
                cases h
              · rw [doApply_success T pol op s h1 h2 h3 h4 h5 h6] at h
                injection h with h; injection h with hb _
                cases hb
  · exact Or.inr hsucc

theorem doApply_congr (T : AccountTypeTags) (pol : Nat → Int) (op : CreateAccountOp)
    (s t : OpState) (hd : s.delta = t.delta) (hs : s.mSourceAccount = t.mSourceAccount) :
    (∀ f, doApply T pol op s = .error f → doApply T pol op t = .error f) ∧
    (∀ b s', doApply T pol op s = .ok (b, s') →
      ∃ t' e, doApply T pol op t = .ok (b, t') ∧
        t'.innerResult = s'.innerResult ∧ t'.delta = s'.delta ∧
        t'.mSourceAccount = s'.mSourceAccount ∧ t'.mDestAccount = s'.mDestAccount ∧
        s'.metrics = s.metrics ++ e ∧ t'.metrics = t.metrics ++ e) := by
  have fail : ∀ name c, doApply T pol op s = .ok (false, failed op s name c) →
      doApply T pol op t = .ok (false, failed op t name c) →
      (∀ f, doApply T pol op s = .error f → doApply T pol op t = .error f) ∧
      (∀ b s', doApply T pol op s = .ok (b, s') →
        ∃ t' e, doApply T pol op t = .ok (b, t') ∧
          t'.innerResult = s'.innerResult ∧ t'.delta = s'.delta ∧
          t'.mSourceAccount = s'.mSourceAccount ∧ t'.mDestAccount = s'.mDestAccount ∧
          s'.metrics = s.metrics ++ e ∧ t'.metrics = t.metrics ++ e) := by
    intro name c e1 e2
    refine ⟨fun f hf => ?_, fun b s' h => ?_⟩
    · rw [e1] at hf; cases hf
    · rw [e1] at h
      injection h with h; injection h with hb hs'
      subst hb; subst hs'
      refine ⟨_, [name], e2, rfl, hd.symm, hs.symm, ?_, rfl, rfl⟩
      simp [failed, loaded, OpState.mark, OpState.code, hd]
  have err : ∀ f0, doApply T pol op s = .error f0 → doApply T pol op t = .error f0 →
      (∀ f, doApply T pol op s = .error f → doApply T pol op t = .error f) ∧
      (∀ b s', doApply T pol op s = .ok (b, s') →
        ∃ t' e, doApply T pol op t = .ok (b, t') ∧
          t'.innerResult = s'.innerResult ∧ t'.delta = s'.delta ∧
          t'.mSourceAccount = s'.mSourceAccount ∧ t'.mDestAccount = s'.mDestAccount ∧
          s'.metrics = s.metrics ++ e ∧ t'.metrics = t.metrics ++ e) := by
    intro f0 e1 e2
    refine ⟨fun f hf => ?_, fun b s' h => ?_⟩
    · rw [e1] at hf; rw [← hf]; exact e2
    · rw [e1] at h; cases h
  cases h1 : s.delta.loadAccount op.destination with
  | some e =>
    exact fail _ _ (doApply_exists T pol op s (by simp [h1]))
      (doApply_exists T pol op t (by rw [← hd]; simp [h1]))
  | none =>
    have h1t : t.delta.loadAccount op.destination = none := by rw [← hd]; exact h1
    cases h2 : validateAccountTypes T s.mSourceAccount op with
    | false =>
      exact fail _ _ (doApply_underauthorized T pol op s h1 h2)
        (doApply_underauthorized T pol op t h1t (by rw [← hs]; exact h2))
    | true =>
      have h2t : validateAccountTypes T t.mSourceAccount op = true := by rw [← hs]; exact h2
      by_cases h3 : op.startingBalance < 10
      · exact fail _ _ (doApply_low_reserve T pol op s h1 h2 h3)
          (doApply_low_reserve T pol op t h1t h2t h3)
      · by_cases h4 : sub64 s.mSourceAccount.balance (pol s.mSourceAccount.numSubEntries)
            < op.startingBalance
        · exact fail _ _ (doApply_underfunded T pol op s h1 h2 h3 h4)
            (doApply_underfunded T pol op t h1t h2t h3 (by rw [← hs]; exact h4))
        · have h4t : ¬ sub64 t.mSourceAccount.balance (pol t.mSourceAccount.numSubEntries)
              < op.startingBalance := by rw [← hs]; exact h4
          by_cases h5 : s.mSourceAccount.balance + -op.startingBalance < 0
          · exact err _ (doApply_assert T pol op s h1 h2 h3 h4 h5)
              (doApply_assert T pol op t h1t h2t h3 h4t (by rw [← hs]; exact h5))
          · have h5t : ¬ t.mSourceAccount.balance + -op.startingBalance < 0 := by
              rw [← hs]; exact h5
            by_cases h6 : s.delta.loadAccount s.mSourceAccount.accountID = none
            · exact err _ (doApply_store_change T pol op s h1 h2 h3 h4 h5 h6)
                (doApply_store_change T pol op t h1t h2t h3 h4t h5t
                  (by rw [← hd, ← hs]; exact h6))
            · have e1 := doApply_success T pol op s h1 h2 h3 h4 h5 h6
              have e2 := doApply_success T pol op t h1t h2t h3 h4t h5t
                (by rw [← hd, ← hs]; exact h6)
              refine ⟨fun f hf => ?_, fun b s' h => ?_⟩
              · rw [e1] at hf; cases hf
              · rw [e1] at h
                injection h with h; injection h with hb hs'
                subst hb; subst hs'
                refine ⟨_, [["op-create-account", "success", "apply"]], e2, rfl, ?_, ?_, ?_,
                  rfl, rfl⟩
                · simp [succeeded, created, debited, hd, hs]
                · simp [succeeded, debited, hs]
                · simp [succeeded, created, hd]

theorem doApply_returns (T : AccountTypeTags) (pol : Nat → Int) (op : CreateAccountOp)
    (s : OpState)
    (hacc : firstMatchingRule T pol op s = CREATE_ACCOUNT_SUCCESS →
      0 ≤ s.mSourceAccount.balance - op.startingBalance)
    (hsrc : firstMatchingRule T pol op s = CREATE_ACCOUNT_SUCCESS →
      s.delta.loadAccount s.mSourceAccount.accountID ≠ none) :
    ∃ b s', doApply T pol op s = .ok (b, s') := by
  cases h1 : s.delta.loadAccount op.destination with
  | some e => exact ⟨_, _, doApply_exists T pol op s (by simp [h1])⟩
  | none =>
    cases h2 : validateAccountTypes T s.mSourceAccount op with
    | false => exact ⟨_, _, doApply_underauthorized T pol op s h1 h2⟩
    | true =>
      by_cases h3 : op.startingBalance < 10
      · exact ⟨_, _, doApply_low_reserve T pol op s h1 h2 h3⟩
      · by_cases h4 : sub64 s.mSourceAccount.balance (pol s.mSourceAccount.numSubEntries)
            < op.startingBalance
        · exact ⟨_, _, doApply_underfunded T pol op s h1 h2 h3 h4⟩
        · have hr : firstMatchingRule T pol op s = CREATE_ACCOUNT_SUCCESS := by
            simp [firstMatchingRule, h1, h2, h3, h4, MIN_STARTING_BALANCE]
          have h5 : ¬ s.mSourceAccount.balance + -op.startingBalance < 0 := by
            have := hacc hr; omega
          exact ⟨_, _, doApply_success T pol op s h1 h2 h3 h4 h5 (hsrc hr)⟩

/-! ## C14: the counter of each result -/

/-- C14: every invocation of `doApply` on inputs the frame can receive
(non-negative `int64_t` balance and reserve, source bound to the delta) returns
and has marked exactly one counter, once, after those marked before the call;
so has every other invocation that returns.  The name of the counter is the
one the specification gives for the result code: ALREADY_EXIST,
UNDERAUTHORIZED, LOW_RESERVE and UNDERFUNDED map to
`op-create-account.failure.*` and SUCCESS to `op-create-account.success.apply`. -/
theorem doApply_emits_one_counter (T : AccountTypeTags) (pol : Nat → Int)
    (op : CreateAccountOp) (s : OpState) :
    (Receivable pol s →
      ∃ b s' name, doApply T pol op s = .ok (b, s') ∧
        s'.metrics = s.metrics ++ [name] ∧
        counterName s'.innerResult = some (dotted name)) ∧
    (∀ (b : Bool) (s' : OpState), doApply T pol op s = .ok (b, s') →
      ∃ name, s'.metrics = s.metrics ++ [name] ∧
        counterName s'.innerResult = some (dotted name)) := by
  have key : ∀ (b : Bool) (s' : OpState), doApply T pol op s = .ok (b, s') →
      ∃ name, s'.metrics = s.metrics ++ [name] ∧
        counterName s'.innerResult = some (dotted name) := by
    intro b s' h
    rcases doApply_ok_branch T pol op s s' b h with ⟨_, p, hp, hs⟩ | ⟨_, hs, _⟩
    · subst hs
      simp only [failureBranches, List.mem_cons, List.mem_singleton, List.not_mem_nil,
        or_false] at hp
      rcases hp with hp | hp | hp | hp <;> subst hp <;>
        exact ⟨_, rfl, by rw [failed_code]; decide⟩
    · subst hs
      exact ⟨_, rfl, by
        show counterName CREATE_ACCOUNT_SUCCESS = _
        decide⟩
  refine ⟨fun hR => ?_, key⟩
  obtain ⟨b, s', h⟩ := doApply_returns T pol op s (receivable_accepted T pol op s hR)
    (fun _ => hR.2.2.2.2)
  obtain ⟨name, hm, hn⟩ := key b s' h
  exact ⟨b, s', name, h, hm, hn⟩

/-- Scenario S5 is a receivable input; it returns and has marked one counter,
the one of its result code. -/
theorem doApply_emits_one_counter_witness :
    Receivable s5Policy s5State ∧
    ∃ b s' name, doApply tags0 s5Policy s5Op s5State = .ok (b, s') ∧
      s'.metrics = s5State.metrics ++ [name] ∧
      counterName s'.innerResult = some (dotted name) :=
  ⟨by decide, (doApply_emits_one_counter tags0 s5Policy s5Op s5State).1 (by decide)⟩

/-! ## C15: idempotence of failure -/

/-- C15: when `doApply` returns with a code other than SUCCESS, applying the
same operation to the state it left returns `false` with the same code, and
again leaves the delta and the source record untouched. -/
theorem doApply_failure_idempotent (T : AccountTypeTags) (pol : Nat → Int)
    (op : CreateAccountOp) (s s1 : OpState) (b : Bool)
    (h : doApply T pol op s = .ok (b, s1))
    (hf : s1.innerResult ≠ CREATE_ACCOUNT_SUCCESS) :
    b = false ∧ s1.delta = s.delta ∧
    ∃ s2, doApply T pol op s1 = .ok (false, s2) ∧
      s2.innerResult = s1.innerResult ∧
      s2.delta = s1.delta ∧ s2.mSourceAccount = s1.mSourceAccount := by
  rcases doApply_ok_cases T pol op s s1 b h with ⟨hb, name, c, _, _, hs⟩ | ⟨_, hs, _⟩
  · have hd : s.delta = s1.delta := by rw [hs]; rfl
    have hsrc : s.mSourceAccount = s1.mSourceAccount := by rw [hs]; rfl
    obtain ⟨t', _, h2, hc, hd', hs', _⟩ := (doApply_congr T pol op s s1 hd hsrc).2 b s1 h
    rw [hb] at h2
    exact ⟨hb, hd.symm, t', h2, hc, hd', hs'⟩
  · subst hs
    exact absurd rfl hf

/-- Scenario S5 applied twice: UNDERFUNDED both times, nothing staged. -/
theorem doApply_failure_idempotent_witness :
    doApply tags0 s5Policy s5Op s5State = .ok (false,
      failed s5Op s5State ["op-create-account", "failure", "underfunded"]
        CREATE_ACCOUNT_UNDERFUNDED) ∧
    ∃ s2, doApply tags0 s5Policy s5Op
        (failed s5Op s5State ["op-create-account", "failure", "underfunded"]
          CREATE_ACCOUNT_UNDERFUNDED) = .ok (false, s2) ∧
      s2.innerResult = CREATE_ACCOUNT_UNDERFUNDED ∧ s2.delta = s5State.delta :=
  have h : doApply tags0 s5Policy s5Op s5State = .ok (false,
      failed s5Op s5State ["op-create-account", "failure", "underfunded"]
        CREATE_ACCOUNT_UNDERFUNDED) := by decide
  have ⟨_, _, s2, h2, hc, hd, _⟩ :=
    doApply_failure_idempotent tags0 s5Policy s5Op s5State _ false h (by decide)
  ⟨h, s2, h2, hc, hd⟩

/-! ## C16: determinism -/

/-- C16: two runs on states with the same delta (snapshot, staged mutations and
header) and the same source record, under the same tags, policy and operation,
agree whatever else the two states hold: `doApply` ends in the same fault, or
returns the same value with the same result code, the same delta, the same
account handles and the same newly marked counters; `doCheckValid` returns the
same value, with the same code when it refuses, the same delta and the same
newly marked counters. -/
theorem handler_deterministic (T : AccountTypeTags) (pol : Nat → Int)
    (op : CreateAccountOp) (sourceID : AccountID) (s t : OpState)
    (hd : s.delta = t.delta) (hs : s.mSourceAccount = t.mSourceAccount) :
    ((∀ f, doApply T pol op s = .error f → doApply T pol op t = .error f) ∧
      (∀ b s', doApply T pol op s = .ok (b, s') →
        ∃ t' e, doApply T pol op t = .ok (b, t') ∧
          t'.innerResult = s'.innerResult ∧ t'.delta = s'.delta ∧
          t'.mSourceAccount = s'.mSourceAccount ∧ t'.mDestAccount = s'.mDestAccount ∧
          s'.metrics = s.metrics ++ e ∧ t'.metrics = t.metrics ++ e)) ∧
    ((doCheckValid sourceID op s).1 = (doCheckValid sourceID op t).1 ∧
      ((doCheckValid sourceID op s).1 = false →
        (doCheckValid sourceID op s).2.innerResult
          = (doCheckValid sourceID op t).2.innerResult) ∧
      (doCheckValid sourceID op s).2.delta = (doCheckValid sourceID op t).2.delta ∧
      ∃ e, (doCheckValid sourceID op s).2.metrics = s.metrics ++ e ∧
        (doCheckValid sourceID op t).2.metrics = t.metrics ++ e) := by
  refine ⟨doApply_congr T pol op s t hd hs, ?_⟩
  by_cases h1 : op.startingBalance ≤ 0
  · simp only [doCheckValid, if_pos h1, OpState.mark, OpState.code]
    exact ⟨trivial, fun _ => trivial, hd, _, rfl, rfl⟩
  · by_cases h2 : op.destination = sourceID
    · have h2' : (op.destination == sourceID) = true := by simpa using h2
      simp only [doCheckValid, if_neg h1, h2', if_true, OpState.mark, OpState.code]
      exact ⟨trivial, fun _ => trivial, hd, _, rfl, rfl⟩
    · have h2' : (op.destination == sourceID) = false := by simpa using h2
      simp only [doCheckValid, if_neg h1, h2']
      exact ⟨rfl, fun h => by simp at h, hd, [], by simp, by simp⟩

/-- Scenario S1 on two replicas whose frames and registries hold different
leftovers: both return `true` with SUCCESS and the same delta. -/
theorem handler_deterministic_witness :
    s1State.delta = replicaState.delta ∧
    s1State.mSourceAccount = replicaState.mSourceAccount ∧
    s1State.metrics ≠ replicaState.metrics ∧
    doApply tags0 (fun _ => 0) s1Op s1State = .ok (true, succeeded s1Op s1State) ∧
    ∃ t' e, doApply tags0 (fun _ => 0) s1Op replicaState = .ok (true, t') ∧
      t'.innerResult = (succeeded s1Op s1State).innerResult ∧
      t'.delta = (succeeded s1Op s1State).delta ∧
      t'.mSourceAccount = (succeeded s1Op s1State).mSourceAccount ∧
      t'.mDestAccount = (succeeded s1Op s1State).mDestAccount ∧
      (succeeded s1Op s1State).metrics = s1State.metrics ++ e ∧
      t'.metrics = replicaState.metrics ++ e :=
  have h : doApply tags0 (fun _ => 0) s1Op s1State = .ok (true, succeeded s1Op s1State) := by
    decide
  ⟨rfl, rfl, by decide, h,
    (handler_deterministic tags0 (fun _ => 0) s1Op 1 s1State replicaState rfl rfl).1.2
      true _ h⟩

/-! ## C17: the counters of the validator -/

/-- C17: `doCheckValid` marks `op-create-account.invalid.malformed-negative-balance`
alone when `startingBalance ≤ 0`, also when the destination equals the source
id; it marks `op-create-account.invalid.malformed-destination-equals-source`
exactly when `startingBalance > 0` and the destination equals the source id; and
it marks nothing exactly when it returns `true`. -/
theorem doCheckValid_counters (sourceID : AccountID) (op : CreateAccountOp) (s : OpState) :
    (doCheckValid sourceID op s).2.metrics = s.metrics ++
      (if op.startingBalance ≤ 0 then
        [["op-create-account", "invalid", "malformed-negative-balance"]]
      else if op.destination = sourceID then
        [["op-create-account", "invalid", "malformed-destination-equals-source"]]
      else []) ∧
    ((doCheckValid sourceID op s).2.metrics = s.metrics ++
        [["op-create-account", "invalid", "malformed-negative-balance"]] ↔
      op.startingBalance ≤ 0) ∧
    ((doCheckValid sourceID op s).2.metrics = s.metrics ++
        [["op-create-account", "invalid", "malformed-destination-equals-source"]] ↔
      (0 < op.startingBalance ∧ op.destination = sourceID)) ∧
    ((doCheckValid sourceID op s).2.metrics = s.metrics ↔
      (doCheckValid sourceID op s).1 = true) ∧
    dotted ["op-create-account", "invalid", "malformed-negative-balance"]
      = "op-create-account.invalid.malformed-negative-balance" ∧
    dotted ["op-create-account", "invalid", "malformed-destination-equals-source"]
      = "op-create-account.invalid.malformed-destination-equals-source" := by
  refine ⟨?_, ?_, ?_, ?_, by decide, by decide⟩ <;>
    by_cases h1 : op.startingBalance ≤ 0 <;>
    by_cases h2 : op.destination = sourceID <;>
    simp [doCheckValid, h1, h2, OpState.mark, OpState.code]
  omega

/-- A request that breaks both rules marks the negative-balance counter only;
scenario S6 marks the destination-equals-source counter. -/
theorem doCheckValid_counters_witness :
    (doCheckValid 1 doublyMalformedOp s1State).2.metrics =
      [["op-create-account", "invalid", "malformed-negative-balance"]] ∧
    (doCheckValid 1 s6Op s1State).2.metrics =
      [["op-create-account", "invalid", "malformed-destination-equals-source"]] :=
  ⟨(doCheckValid_counters 1 doublyMalformedOp s1State).1,
    (doCheckValid_counters 1 s6Op s1State).1⟩

/-! ## C18: `doApply` without prior validation -/

/-- C18: `doApply` returns SUCCESS only if `op.startingBalance ≥ 10` and never
returns MALFORMED; for `startingBalance ≤ 0` it returns `false` with one of
ALREADY_EXIST, UNDERAUTHORIZED, LOW_RESERVE and leaves the delta and the source
record untouched. -/
theorem doApply_without_validation (T : AccountTypeTags) (pol : Nat → Int)
    (op : CreateAccountOp) (s : OpState) :
    (∀ (b : Bool) (s' : OpState), doApply T pol op s = .ok (b, s') →
      (s'.innerResult = CREATE_ACCOUNT_SUCCESS → 10 ≤ op.startingBalance) ∧
      s'.innerResult ≠ CREATE_ACCOUNT_MALFORMED) ∧
    (op.startingBalance ≤ 0 →
      ∃ s', doApply T pol op s = .ok (false, s') ∧
        s'.innerResult ∈ [CREATE_ACCOUNT_ALREADY_EXIST, CREATE_ACCOUNT_UNDERAUTHORIZED,
          CREATE_ACCOUNT_LOW_RESERVE] ∧
        s'.delta = s.delta ∧ s'.mSourceAccount = s.mSourceAccount) := by
  constructor
  · intro b s' h
    rcases doApply_ok_cases T pol op s s' b h with ⟨_, name, c, hc1, hc2, hs⟩ | ⟨_, hs, hS⟩
    · subst hs
      rw [failed_code]
      exact ⟨fun hc => absurd hc hc1, hc2⟩
    · subst hs
      exact ⟨fun _ => hS.2.2.1, by simp [succeeded]⟩
  · intro h0
    cases h1 : s.delta.loadAccount op.destination with
    | some e =>
      exact ⟨_, doApply_exists T pol op s (by simp [h1]), by simp [failed_code], rfl, rfl⟩
    | none =>
      cases h2 : validateAccountTypes T s.mSourceAccount op with
      | false =>
        exact ⟨_, doApply_underauthorized T pol op s h1 h2, by simp [failed_code], rfl, rfl⟩
      | true =>
        exact ⟨_, doApply_low_reserve T pol op s h1 h2 (by omega), by simp [failed_code],
          rfl, rfl⟩

/-- A request with a starting balance of zero on the state of scenario S1 is
refused with LOW_RESERVE and stages nothing. -/
theorem doApply_without_validation_witness :
    zeroOp.startingBalance ≤ 0 ∧
    ∃ s', doApply tags0 (fun _ => 0) zeroOp s1State = .ok (false, s') ∧
      s'.innerResult ∈ [CREATE_ACCOUNT_ALREADY_EXIST, CREATE_ACCOUNT_UNDERAUTHORIZED,
        CREATE_ACCOUNT_LOW_RESERVE] ∧
      s'.delta = s1State.delta ∧ s'.mSourceAccount = s1State.mSourceAccount :=
  ⟨by decide,
    (doApply_without_validation tags0 (fun _ => 0) zeroOp s1State).2 (by decide)⟩

/-! ## C19: absence of overflow -/

/-- C19: for `int64_t` values with `0 ≤ source.balance` and `0 ≤ reserve`, the
subtraction `balance - reserve` is exact, so the wrapped funding comparison is
the mathematical one; when `startingBalance ≥ 10` the `int64_t` negation
`-startingBalance` and the `int64_t` sum `balance + (-startingBalance)` are
exact; and after a successful `doApply` the source balance is that sum and is
not negative. -/
theorem doApply_no_overflow (T : AccountTypeTags) (pol : Nat → Int)
    (op : CreateAccountOp) (s : OpState)
    (hb : isInt64 s.mSourceAccount.balance)
    (hm : isInt64 (pol s.mSourceAccount.numSubEntries))
    (hst : isInt64 op.startingBalance)
    (h0 : 0 ≤ s.mSourceAccount.balance)
    (hmin : 0 ≤ pol s.mSourceAccount.numSubEntries) :
    isInt64 (s.mSourceAccount.balance - pol s.mSourceAccount.numSubEntries) ∧
    sub64 s.mSourceAccount.balance (pol s.mSourceAccount.numSubEntries)
      = s.mSourceAccount.balance - pol s.mSourceAccount.numSubEntries ∧
    (sub64 s.mSourceAccount.balance (pol s.mSourceAccount.numSubEntries)
        < op.startingBalance ↔
      s.mSourceAccount.balance - pol s.mSourceAccount.numSubEntries < op.startingBalance) ∧
    (10 ≤ op.startingBalance →
      isInt64 (-op.startingBalance) ∧ neg64 op.startingBalance = -op.startingBalance ∧
      isInt64 (s.mSourceAccount.balance - op.startingBalance) ∧
      add64 s.mSourceAccount.balance (neg64 op.startingBalance)
        = s.mSourceAccount.balance - op.startingBalance) ∧
    (∀ (b : Bool) (s' : OpState), doApply T pol op s = .ok (b, s') →
      s'.innerResult = CREATE_ACCOUNT_SUCCESS →
      s'.mSourceAccount.balance = add64 s.mSourceAccount.balance (neg64 op.startingBalance) ∧
      0 ≤ s'.mSourceAccount.balance) := by
  have hr : isInt64 (s.mSourceAccount.balance - pol s.mSourceAccount.numSubEntries) := by
    simp only [isInt64, INT64_MIN, INT64_MAX] at *
    omega
  have hx := sub64_exact _ _ hr
  have hneg : 10 ≤ op.startingBalance →
      isInt64 (-op.startingBalance) ∧ neg64 op.startingBalance = -op.startingBalance ∧
      isInt64 (s.mSourceAccount.balance - op.startingBalance) ∧
      add64 s.mSourceAccount.balance (neg64 op.startingBalance)
        = s.mSourceAccount.balance - op.startingBalance := by
    intro h10
    simp only [isInt64, INT64_MIN, INT64_MAX, neg64, add64, wrap64] at *
    omega
  refine ⟨hr, hx, by rw [hx], hneg, ?_⟩
  intro b s' h hc
  rcases doApply_ok_cases T pol op s s' b h with ⟨_, name, c, hc1, _, hs⟩ | ⟨_, hs, hS⟩
  · subst hs
    rw [failed_code] at hc
    exact absurd hc hc1
  · subst hs
    obtain ⟨_, _, h3, _, h5, _⟩ := hS
    rw [(hneg h3).2.2.2]
    simp only [succeeded, debited]
    omega

/-- Scenario S5 (balance 100, reserve 50, starting balance 80): `100 - 50` does
not wrap and is below 80. -/
theorem doApply_no_overflow_witness :
    isInt64 s5State.mSourceAccount.balance ∧
    isInt64 (s5Policy s5State.mSourceAccount.numSubEntries) ∧
    isInt64 s5Op.startingBalance ∧
    sub64 s5State.mSourceAccount.balance (s5Policy s5State.mSourceAccount.numSubEntries)
      = s5State.mSourceAccount.balance - s5Policy s5State.mSourceAccount.numSubEntries ∧
    neg64 s5Op.startingBalance = -s5Op.startingBalance :=
  have r := doApply_no_overflow tags0 s5Policy s5Op s5State (by decide) (by decide)
    (by decide) (by decide) (by decide)
  ⟨by decide, by decide, by decide, r.2.1, (r.2.2.2.1 (by decide)).2.1⟩

/-! ## C20: the type of the created account -/

/-- C20: after a successful `doApply` the type of the created record, the one
staged by `storeAdd`, is one of LBO, OPERATOR, ISSUER, CLIENT; so it is no tag
outside the named types and, the enumerators being pairwise different, it is
not FOUNDATION.  If the source is neither FOUNDATION nor LBO, the created type
is CLIENT. -/
theorem doApply_created_type (T : AccountTypeTags) (pol : Nat → Int)
    (op : CreateAccountOp) (s s' : OpState) (b : Bool)
    (h : doApply T pol op s = .ok (b, s'))
    (hc : s'.innerResult = CREATE_ACCOUNT_SUCCESS) :
    ∃ dest, s'.mDestAccount = some dest ∧
      s'.delta.staged.head? = some (Mutation.add dest) ∧
      dest.accountType ∈ [T.LBO, T.OPERATOR, T.ISSUER, T.CLIENT] ∧
      (T.Distinct → dest.accountType ≠ T.FOUNDATION) ∧
      (s.mSourceAccount.accountType ≠ T.FOUNDATION →
        s.mSourceAccount.accountType ≠ T.LBO → dest.accountType = T.CLIENT) := by
  rcases doApply_ok_cases T pol op s s' b h with ⟨_, name, c, hc1, _, hs⟩ | ⟨_, hs, hS⟩
  · subst hs
    rw [failed_code] at hc
    exact absurd hc hc1
  · subst hs
    have hp := (validateAccountTypes_iff_permitted T _ _).mp hS.2.1
    simp only [permittedCreation] at hp
    refine ⟨created op s, rfl, rfl, ?_, ?_, ?_⟩
    · simp only [created, List.mem_cons, List.mem_singleton, List.not_mem_nil, or_false]
      tauto
    · intro hT
      simp only [AccountTypeTags.Distinct, List.nodup_cons, List.mem_cons,
        List.mem_singleton, List.not_mem_nil, not_or, List.nodup_nil] at hT
      simp only [created]
      omega
    · intro hF hL
      simp only [created]
      tauto

/-- Scenario S1 creates a CLIENT account, which is not FOUNDATION. -/
theorem doApply_created_type_witness :
    doApply tags0 (fun _ => 0) s1Op s1State = .ok (true, succeeded s1Op s1State) ∧
    ∃ dest, (succeeded s1Op s1State).mDestAccount = some dest ∧
      dest.accountType ∈ [tags0.LBO, tags0.OPERATOR, tags0.ISSUER, tags0.CLIENT] ∧
      dest.accountType ≠ tags0.FOUNDATION :=
  have h : doApply tags0 (fun _ => 0) s1Op s1State = .ok (true, succeeded s1Op s1State) := by
    decide
  have ⟨dest, hd, _, hm, hF, _⟩ :=
    doApply_created_type tags0 (fun _ => 0) s1Op s1State _ true h rfl
  ⟨h, dest, hd, hm, hF (by decide)⟩

end stellar
